import Mathlib

/-!
Minimum kubelet version enforcement.

A shallow embedding of the three enforcement points of the repository

* `openshift-kube-apiserver/authorization/minimumkubeletversion` (the authorizer),
* `openshift-kube-apiserver/admission/customresourcevalidation/node` (the config validator),
* `plugin/pkg/admission/nodeversion` (the node admission plugin),

together with the two version libraries they call.  Go strings are embedded as
Lean `String`s (valid UTF-8 only); Go `uint64`/`uint` are `Nat`s whose range is
enforced where the code enforces it (`strconv.ParseUint`).
-/

/-! ## String helpers (package `strings`, `strconv`, `fmt`) -/

deriving instance DecidableEq for Except

namespace gostrings

/-- Cut a character list at the first occurrence of `c` (`strings.Cut` for a
one-character separator): the part before and the part after. -/
def cutAt (c : Char) : List Char → Option (List Char × List Char)
  | [] => none
  | x :: xs =>
    if x = c then some ([], xs)
    else match cutAt c xs with
      | none => none
      | some (a, b) => some (x :: a, b)

/-- The function `strings.Split(s, sep)` for a one-character separator. -/
def splitOn (c : Char) : List Char → List (List Char)
  | [] => [[]]
  | x :: xs =>
    if x = c then [] :: splitOn c xs
    else match splitOn c xs with
      | [] => [[x]]
      | p :: ps => (x :: p) :: ps

/-- The function `strings.SplitN(s, sep, 3)` for a one-character separator. -/
def splitN3 (c : Char) (s : List Char) : List (List Char) :=
  match cutAt c s with
  | none => [s]
  | some (a, r) =>
    match cutAt c r with
    | none => [a, r]
    | some (b, t) => [a, b, t]

/-- Remove `p` from the front of `s` when it is there. -/
def dropFront : List Char → List Char → Option (List Char)
  | [], s => some s
  | _ :: _, [] => none
  | p :: ps, x :: xs => if p = x then dropFront ps xs else none

/-- The function `strings.TrimPrefix(s, p)`. -/
def TrimPrefix (s p : String) : String :=
  match dropFront p.data s.data with
  | some rest => String.mk rest
  | none => s

/-- The function `strings.HasPrefix(s, p)`. -/
def HasPrefix (s p : String) : Bool :=
  (dropFront p.data s.data).isSome

/-- The lexical order of two character lists: the first character that differs
decides, and a proper start of a list is lower. -/
def lessChars : List Char → List Char → Bool
  | _, [] => false
  | [], _ :: _ => true
  | a :: as, b :: bs =>
    if a < b then true
    else if b < a then false
    else lessChars as bs

/-- The operator `<` of Go on strings: the lexical order of the bytes, which for
UTF-8 is the lexical order of the characters. -/
def Less (a b : String) : Bool :=
  lessChars a.data b.data

/-- One hexadecimal digit, lower case. -/
def hexDigit (n : Nat) : Char :=
  if n < 10 then Char.ofNat (48 + n) else Char.ofNat (87 + n)

/-- The printable characters of Go (`strconv.IsPrint`): letters, marks,
numbers, punctuation, symbols and the ASCII space.  Up to U+00FF the rule is the
one of Go; above it the table of Go is abridged to what it excludes among the
assigned characters in common use: the separators, the format characters and
the private-use and non-character code points of the basic plane. -/
def isPrint (c : Char) : Bool :=
  if c.toNat ≤ 0xFF then
    (0x20 ≤ c.toNat ∧ c.toNat ≤ 0x7E) ∨ (0xA1 ≤ c.toNat ∧ c.toNat ≠ 0xAD)
  else
    ¬ (c.toNat = 0x061C ∨ c.toNat = 0x1680 ∨ c.toNat = 0x180E
      ∨ (0x2000 ≤ c.toNat ∧ c.toNat ≤ 0x200F) ∨ (0x2028 ≤ c.toNat ∧ c.toNat ≤ 0x202F)
      ∨ (0x205F ≤ c.toNat ∧ c.toNat ≤ 0x206F) ∨ c.toNat = 0x3000
      ∨ (0xE000 ≤ c.toNat ∧ c.toNat ≤ 0xF8FF) ∨ c.toNat = 0xFEFF
      ∨ (0xFFF0 ≤ c.toNat ∧ c.toNat ≤ 0xFFFB) ∨ c.toNat = 0xFFFE ∨ c.toNat = 0xFFFF)

/-- The escape `strconv.Quote` writes for one character: the quote and the
backslash are escaped, a printable character is kept, and any other character
is written as a control escape, as `\x` with two, `\u` with four or `\U` with
eight hexadecimal digits. -/
def quoteChar (c : Char) : List Char :=
  if c = '"' then ['\\', '"']
  else if c = '\\' then ['\\', '\\']
  else if isPrint c then [c]
  else if c = Char.ofNat 7 then ['\\', 'a']
  else if c = Char.ofNat 8 then ['\\', 'b']
  else if c = Char.ofNat 12 then ['\\', 'f']
  else if c = '\n' then ['\\', 'n']
  else if c = '\r' then ['\\', 'r']
  else if c = '\t' then ['\\', 't']
  else if c = Char.ofNat 11 then ['\\', 'v']
  else if c.toNat < 32 ∨ c.toNat = 127 then
    ['\\', 'x', hexDigit (c.toNat / 16), hexDigit (c.toNat % 16)]
  else if c.toNat < 0x10000 then
    ['\\', 'u', hexDigit (c.toNat / 4096 % 16), hexDigit (c.toNat / 256 % 16),
      hexDigit (c.toNat / 16 % 16), hexDigit (c.toNat % 16)]
  else
    ['\\', 'U', hexDigit (c.toNat / 268435456 % 16), hexDigit (c.toNat / 16777216 % 16),
      hexDigit (c.toNat / 1048576 % 16), hexDigit (c.toNat / 65536 % 16),
      hexDigit (c.toNat / 4096 % 16), hexDigit (c.toNat / 256 % 16),
      hexDigit (c.toNat / 16 % 16), hexDigit (c.toNat % 16)]

/-- The verb `%q` of `fmt` on a string (`strconv.Quote`). -/
def Quote (s : String) : String :=
  String.mk ('"' :: (s.data.flatMap quoteChar ++ ['"']))

/-- Decimal digits of `n`, most significant first, with `fuel` bounding the
number of digits. -/
def digitsAux : Nat → Nat → List Char → List Char
  | 0, _, acc => acc
  | fuel + 1, n, acc =>
    if n < 10 then Char.ofNat (48 + n) :: acc
    else digitsAux fuel (n / 10) (Char.ofNat (48 + n % 10) :: acc)

/-- The function `strconv.FormatUint(n, 10)` (the verb `%d`). -/
def FormatUint (n : Nat) : String :=
  String.mk (digitsAux (n + 1) n [])

/-- Value of a run of decimal digits, `none` when a character is not a digit. -/
def digitsValue : List Char → Nat → Option Nat
  | [], acc => some acc
  | c :: cs, acc =>
    if '0' ≤ c ∧ c ≤ '9' then digitsValue cs (acc * 10 + (c.toNat - 48)) else none

/-- The function `strconv.ParseUint(s, 10, 64)`: a non-empty run of decimal
digits whose value fits 64 bits. -/
def ParseUint (s : String) : Except String Nat :=
  if s.data = [] then
    .error ("strconv.ParseUint: parsing " ++ Quote s ++ ": invalid syntax")
  else match digitsValue s.data 0 with
    | none => .error ("strconv.ParseUint: parsing " ++ Quote s ++ ": invalid syntax")
    | some n =>
      if n < 2 ^ 64 then .ok n
      else .error ("strconv.ParseUint: parsing " ++ Quote s ++ ": value out of range")

end gostrings

/-! ## Package `github.com/blang/semver/v4`

The library is vendored by the repository and is not under src/; the authorizer
and the config validator call its `Parse`, `GT` and `String`. -/

namespace semver

/-- Modelled from the spec: the constant `numbers`. -/
def numbers : String := "0123456789"

/-- Modelled from the spec: the constant `alphas`. -/
def alphas : String := "abcdefghijklmnopqrstuvwxyzABCDEFGHIJKLMNOPQRSTUVWXYZ-"

/-- Modelled from the spec: the constant `alphanum`. -/
def alphanum : String := alphas ++ numbers

/-- Modelled from the spec: `containsOnly` of the vendored semver library, which
is not under src/; true when every character of `s` occurs in `comp`. -/
def containsOnly (s comp : String) : Bool :=
  s.data.all (fun r => comp.data.contains r)

/-- Modelled from the spec: `hasLeadingZeroes` of the vendored semver library,
which is not under src/; more than one character, the first of them a zero. -/
def hasLeadingZeroes (s : String) : Bool :=
  match s.data with
  | c :: _ :: _ => c = '0'
  | _ => false

/-- Modelled from the spec: a pre-release field: numeric or alphanumeric. -/
structure PRVersion where
  VersionStr : String
  VersionNum : Nat
  IsNum : Bool
deriving DecidableEq, Repr

/-- Modelled from the spec: a semantic version `Major.Minor.Patch-Pre+Build`. -/
structure Version where
  Major : Nat
  Minor : Nat
  Patch : Nat
  Pre : List PRVersion
  Build : List String
deriving DecidableEq, Repr

/-- Modelled from the spec: `NewPRVersion` of the vendored semver library, which
is not under src/; one pre-release field, numeric without leading zeroes or
alphanumeric. -/
def NewPRVersion (s : String) : Except String PRVersion :=
  if s.data = [] then .error "Prerelease is empty"
  else if containsOnly s numbers then
    if hasLeadingZeroes s then
      .error ("Numeric PreRelease version must not contain leading zeroes " ++ gostrings.Quote s)
    else match gostrings.ParseUint s with
      | .error e => .error e
      | .ok num => .ok { VersionStr := "", VersionNum := num, IsNum := true }
  else if containsOnly s alphanum then
    .ok { VersionStr := s, VersionNum := 0, IsNum := false }
  else .error ("Invalid character(s) found in prerelease " ++ gostrings.Quote s)

/-- Modelled from the spec: the loop of `Parse` over the pre-release fields. -/
def parsePre : List String → Except String (List PRVersion)
  | [] => .ok []
  | prstr :: rest =>
    match NewPRVersion prstr with
    | .error e => .error e
    | .ok parsedPR =>
      match parsePre rest with
      | .error e => .error e
      | .ok more => .ok (parsedPR :: more)

/-- Modelled from the spec: the loop of `Parse` over the build meta data fields. -/
def parseBuild : List String → Except String (List String)
  | [] => .ok []
  | str :: rest =>
    if str.data = [] then .error "Build meta data is empty"
    else if !containsOnly str alphanum then
      .error ("Invalid character(s) found in build meta data " ++ gostrings.Quote str)
    else match parseBuild rest with
      | .error e => .error e
      | .ok more => .ok (str :: more)

/-- Modelled from the spec:
one of the three numeric parts of `Parse`; `lower` and `upper` are the name
of the part as the two error messages write it. -/
def parseNumber (lower upper part : String) : Except String Nat :=
  if !containsOnly part numbers then
    .error ("Invalid character(s) found in " ++ lower ++ " number " ++ gostrings.Quote part)
  else if hasLeadingZeroes part then
    .error (upper ++ " number must not contain leading zeroes " ++ gostrings.Quote part)
  else gostrings.ParseUint part

/-- Modelled from the spec: `semver.Parse` of the vendored semver library, which
is not under src/; it parses `Major.Minor.Patch` with an optional `-` pre-release
and `+` build part, and accepts no leading `v`. -/
def Parse (s : String) : Except String Version :=
  if s.data = [] then .error "Version string empty"
  else match gostrings.splitN3 '.' s.data with
    | [p0, p1, p2] =>
      match parseNumber "major" "Major" (String.mk p0) with
      | .error e => .error e
      | .ok major =>
      match parseNumber "minor" "Minor" (String.mk p1) with
      | .error e => .error e
      | .ok minor =>
      let (patchStr, build) : List Char × List String :=
        match gostrings.cutAt '+' p2 with
        | some (before, after) => (before, (gostrings.splitOn '.' after).map String.mk)
        | none => (p2, [])
      let (patchStr, prerelease) : List Char × List String :=
        match gostrings.cutAt '-' patchStr with
        | some (before, after) => (before, (gostrings.splitOn '.' after).map String.mk)
        | none => (patchStr, [])
      match parseNumber "patch" "Patch" (String.mk patchStr) with
      | .error e => .error e
      | .ok patch =>
      match parsePre prerelease with
      | .error e => .error e
      | .ok pre =>
      match parseBuild build with
      | .error e => .error e
      | .ok bld =>
        .ok { Major := major, Minor := minor, Patch := patch, Pre := pre, Build := bld }
    | _ => .error "No Major.Minor.Patch elements found"

/-- Modelled from the spec: the method `PRVersion.String`. -/
def PRVersion.String (v : PRVersion) : String :=
  if v.IsNum then gostrings.FormatUint v.VersionNum else v.VersionStr

/-- Modelled from the spec: the method `Version.String`. -/
def Version.String (v : Version) : String :=
  gostrings.FormatUint v.Major ++ "." ++ gostrings.FormatUint v.Minor ++ "."
    ++ gostrings.FormatUint v.Patch
    ++ (match v.Pre with
        | [] => ""
        | p :: ps => "-" ++ p.String ++ String.join (ps.map (fun q => "." ++ q.String)))
    ++ (match v.Build with
        | [] => ""
        | b :: bs => "+" ++ b ++ String.join (bs.map (fun c => "." ++ c)))

/-- Modelled from the spec:
the method `PRVersion.Compare`: numeric fields are lower than alphanumeric
ones; two of a kind compare by value. -/
def PRVersion.Compare (v o : PRVersion) : Int :=
  if v.IsNum && !o.IsNum then -1
  else if !v.IsNum && o.IsNum then 1
  else if v.IsNum && o.IsNum then
    if v.VersionNum = o.VersionNum then 0
    else if v.VersionNum > o.VersionNum then 1
    else -1
  else
    if v.VersionStr = o.VersionStr then 0
    else if gostrings.Less o.VersionStr v.VersionStr then 1
    else -1

/-- Modelled from the spec: the loop of `Version.Compare` over the two pre-release lists, with the
comparison of the lengths that follows it. -/
def comparePre : List PRVersion → List PRVersion → Int
  | [], [] => 0
  | [], _ :: _ => -1
  | _ :: _, [] => 1
  | x :: xs, y :: ys =>
    let comp := x.Compare y
    if comp = 0 then comparePre xs ys
    else if comp = 1 then 1
    else -1

/-- Modelled from the spec: the method `Version.Compare`: `-1`, `0` or `1`. -/
def Version.Compare (v o : Version) : Int :=
  if v.Major ≠ o.Major then
    if v.Major > o.Major then 1 else -1
  else if v.Minor ≠ o.Minor then
    if v.Minor > o.Minor then 1 else -1
  else if v.Patch ≠ o.Patch then
    if v.Patch > o.Patch then 1 else -1
  else if v.Pre.length = 0 ∧ o.Pre.length = 0 then 0
  else if v.Pre.length = 0 ∧ o.Pre.length > 0 then 1
  else if v.Pre.length > 0 ∧ o.Pre.length = 0 then -1
  else comparePre v.Pre o.Pre

/-- Modelled from the spec: the method `Version.GT`. -/
def Version.GT (v o : Version) : Bool :=
  v.Compare o = 1

end semver

/-! ## API objects read by the policy

The API types are declared in packages of the repository that are not under
src/; of each, the fields the three enforcement points read are kept. -/

namespace schema

/-- Modelled from the spec: the struct `schema.GroupResource`. -/
structure GroupResource where
  Group : String
  Resource : String
deriving DecidableEq, Repr

end schema

namespace api

/-- Modelled from the spec: the constant `GroupName` of `k8s.io/kubernetes/pkg/apis/core`,
which is not under src/; the core API group, whose name is the empty string. -/
def GroupName : String := ""

/-- Modelled from the spec: the function `api.Resource` of `k8s.io/kubernetes/pkg/apis/core`,
which is not under src/; the resource qualified with the core API group. -/
def Resource (resource : String) : schema.GroupResource :=
  { Group := GroupName, Resource := resource }

end api

namespace corev1

/-- Modelled from the spec: the part of `metav1.ObjectMeta` the policy reads. -/
structure ObjectMeta where
  Name : String
deriving DecidableEq, Repr

/-- Modelled from the spec: the part of `NodeSystemInfo` the policy reads. -/
structure NodeSystemInfo where
  KubeletVersion : String
deriving DecidableEq, Repr

/-- Modelled from the spec: the part of `NodeStatus` the policy reads. -/
structure NodeStatus where
  NodeInfo : NodeSystemInfo
deriving DecidableEq, Repr

/-- Modelled from the spec:
an agent record (`Node`): its name and the version its kubelet reports. -/
structure Node where
  ObjectMeta : ObjectMeta
  Status : NodeStatus
deriving DecidableEq, Repr

end corev1

namespace user

/-- Modelled from the spec: the interface `user.Info`, as a record of what it returns. -/
structure Info where
  Name : String
  UID : String
  Groups : List String
deriving DecidableEq, Repr

end user

/-! ## Package `minimumkubeletversion`: the authorizer -/

namespace minimumkubeletversion

/-- Modelled from the spec: the type `authorizer.Decision`. -/
inductive Decision where
  | DecisionDeny
  | DecisionAllow
  | DecisionNoOpinion
deriving DecidableEq, Repr

/-- Modelled from the spec: the interface `authorizer.Attributes`, as a record of what its getters
return; the user is present (not nil). -/
structure Attributes where
  User : user.Info
  Verb : String
  Namespace : String
  APIGroup : String
  Resource : String
  Subresource : String
  Name : String
  IsResourceRequest : Bool
  Path : String
deriving DecidableEq, Repr

/-- A call the authorizer makes to one of its two external collaborators. -/
inductive Call where
  | NodeIdentity (u : user.Info)
  | ListerGet (nodeName : String)
deriving DecidableEq, Repr

/-- The struct `minimumKubeletVersionAuth`: the node identifier, as the function
`NodeIdentity` from a user to `(nodeName, isNode)`, and the node informer, as the
function `Lister().Get` from a node name to a node or the text of an error. -/
structure minimumKubeletVersionAuth where
  nodeIdentifier : user.Info → String × Bool
  nodeInformer : String → Except String corev1.Node

/-- What `Authorize` returns (decision, reason, error), with the external calls
it made, in order. -/
structure AuthorizeResult where
  Decision : Decision
  Reason : String
  Err : Option String
  Calls : List Call
deriving DecidableEq, Repr

/-- The function `SetMinimumKubeletVersion` on the package variable
`minimumKubeletVersion`, passed as state; `MustParse` panics on a malformed
version, which is the `error` outcome, with the text of the panic. -/
def SetMinimumKubeletVersion (version : String) (minimumKubeletVersion : Option semver.Version) :
    Except String (Option semver.Version) :=
  if version = "" then .ok minimumKubeletVersion
  else match semver.Parse version with
    | .error e => .error ("semver: Parse(" ++ version ++ "): " ++ e)
    | .ok v => .ok (some v)

/-- The function `IsKubeletVersionTooOld`. -/
def IsKubeletVersionTooOld (node : corev1.Node) (minVersion : semver.Version) : Bool × String :=
  match semver.Parse (gostrings.TrimPrefix node.Status.NodeInfo.KubeletVersion "v") with
  | .error err =>
    (false, "failed to parse node version " ++ node.Status.NodeInfo.KubeletVersion ++ ": " ++ err)
  | .ok parsed =>
    let version : semver.Version := { parsed with Pre := [], Build := [] }
    let name := node.ObjectMeta.Name
    if minVersion.GT version then
      (true, "kubelet version of node " ++ name ++ " is " ++ version.String
        ++ ", which is lower than minimumKubeletVersion of " ++ minVersion.String)
    else (false, "")

/-- The tail of `Authorize`: the lookup of the caller in the informer cache and
the comparison of its version with the minimum. -/
def authorizeByVersion (m : minimumKubeletVersionAuth) (minVersion : semver.Version)
    (attrs : Attributes) (nodeName : String) : AuthorizeResult :=
  let calls := [Call.NodeIdentity attrs.User, Call.ListerGet nodeName]
  match m.nodeInformer nodeName with
  | .error err =>
    ⟨.DecisionNoOpinion, "failed to get node " ++ nodeName ++ ": " ++ err, none, calls⟩
  | .ok node =>
    let (tooOld, errStr) := IsKubeletVersionTooOld node minVersion
    if tooOld then ⟨.DecisionDeny, errStr, none, calls⟩
    else ⟨.DecisionNoOpinion, errStr, none, calls⟩

/-- The method `minimumKubeletVersionAuth.Authorize`; the package variable
`minimumKubeletVersion` is passed as an argument (`none` is the nil pointer). -/
def Authorize (m : minimumKubeletVersionAuth) (minimumKubeletVersion : Option semver.Version)
    (attrs : Attributes) : AuthorizeResult :=
  match minimumKubeletVersion with
  | none => ⟨.DecisionNoOpinion, "", none, []⟩
  | some minVersion =>
    let (nodeName, isNode) := m.nodeIdentifier attrs.User
    if !isNode then
      ⟨.DecisionNoOpinion, "", none, [Call.NodeIdentity attrs.User]⟩
    else if nodeName.length = 0 then
      ⟨.DecisionNoOpinion, "unknown node for user " ++ gostrings.Quote attrs.User.Name, none,
        [Call.NodeIdentity attrs.User]⟩
    else if attrs.IsResourceRequest then
      let requestResource : schema.GroupResource :=
        { Group := attrs.APIGroup, Resource := attrs.Resource }
      if requestResource = api.Resource "nodes" then
        if attrs.Verb = "get" ∨ attrs.Verb = "update" then
          ⟨.DecisionNoOpinion, "", none, [Call.NodeIdentity attrs.User]⟩
        else authorizeByVersion m minVersion attrs nodeName
      else if requestResource = api.Resource "subjectaccessreviews" then
        ⟨.DecisionNoOpinion, "", none, [Call.NodeIdentity attrs.User]⟩
      else authorizeByVersion m minVersion attrs nodeName
    else authorizeByVersion m minVersion attrs nodeName

/-- The test of the switch of `Authorize`, as the code makes it: the request is
a resource request whose group and resource are those of `api.Resource "nodes"`
with the verb `get` or `update`, or those of `api.Resource "subjectaccessreviews"`.
Both are in the core API group: this is what the code short-circuits, not what
the specification exempts (see `exemptRequestAsSpecified`). -/
def exemptRequest (attrs : Attributes) : Bool :=
  attrs.IsResourceRequest &&
    ((attrs.APIGroup == api.GroupName && attrs.Resource == "nodes"
        && (attrs.Verb == "get" || attrs.Verb == "update"))
      || (attrs.APIGroup == api.GroupName && attrs.Resource == "subjectaccessreviews"))

end minimumkubeletversion

/-! ## Package `node`: the config validator -/

namespace configv1

/-- Modelled from the spec: the constant `DefaultUpdateDefaultReaction` of the
vendored `github.com/openshift/api/config/v1`, which is not under src/; the
Default latency profile. -/
def DefaultUpdateDefaultReaction : String := "Default"

/-- Modelled from the spec: the constant `MediumUpdateAverageReaction` of the
vendored `github.com/openshift/api/config/v1`, which is not under src/; the
Medium latency profile. -/
def MediumUpdateAverageReaction : String := "MediumUpdateAverageReaction"

/-- Modelled from the spec: the constant `LowUpdateSlowReaction` of the vendored
`github.com/openshift/api/config/v1`, which is not under src/; the Low latency
profile. -/
def LowUpdateSlowReaction : String := "LowUpdateSlowReaction"

/-- Modelled from the spec: the part of `configv1.NodeSpec` the validator reads; the worker latency
profile is a string type whose empty value is "unset". -/
structure NodeSpec where
  WorkerLatencyProfile : String
  MinimumKubeletVersion : String
deriving DecidableEq, Repr

/-- Modelled from the spec: the cluster-wide config object `configv1.Node`. -/
structure Node where
  ObjectMeta : corev1.ObjectMeta
  Spec : NodeSpec
deriving DecidableEq, Repr

end configv1

namespace field

/-- Modelled from the spec:
the type `field.ErrorType`, for the kinds of error the validator builds. -/
inductive ErrorType where
  | ErrorTypeInvalid
  | ErrorTypeNotSupported
  | ErrorTypeForbidden
deriving DecidableEq, Repr

/-- Modelled from the spec: the struct `field.Error`; `Typ` is its field `Type`. -/
structure Error where
  Typ : ErrorType
  Field : String
  BadValue : String
  Detail : String
deriving DecidableEq, Repr

/-- Modelled from the spec: the function `field.Invalid`. -/
def Invalid (fieldPath value detail : String) : Error :=
  { Typ := .ErrorTypeInvalid, Field := fieldPath, BadValue := value, Detail := detail }

/-- Modelled from the spec: the function `field.Forbidden`. -/
def Forbidden (fieldPath detail : String) : Error :=
  { Typ := .ErrorTypeForbidden, Field := fieldPath, BadValue := "", Detail := detail }

/-- Modelled from the spec: the function `field.NotSupported`; the detail lists
the quoted valid values. -/
def NotSupported (fieldPath value : String) (validValues : List String) : Error :=
  { Typ := .ErrorTypeNotSupported, Field := fieldPath, BadValue := value,
    Detail := if validValues.length > 0 then
        "supported values: " ++ String.intercalate ", " (validValues.map gostrings.Quote)
      else "" }

/-- Modelled from the spec: the string of `field.NewPath(a, b)`. -/
def NewPath (a b : String) : String := a ++ "." ++ b

end field

namespace node

/-- One entry of `rejectionScenarios`. -/
structure rejectionScenario where
  fromProfile : String
  toProfile : String
deriving DecidableEq, Repr

/-- The table `rejectionScenarios`. -/
def rejectionScenarios : List rejectionScenario :=
  [ { fromProfile := "", toProfile := configv1.LowUpdateSlowReaction },
    { fromProfile := configv1.LowUpdateSlowReaction, toProfile := "" },
    { fromProfile := configv1.DefaultUpdateDefaultReaction,
      toProfile := configv1.LowUpdateSlowReaction },
    { fromProfile := configv1.LowUpdateSlowReaction,
      toProfile := configv1.DefaultUpdateDefaultReaction } ]

/-- The loop of `validateConfigNodeForExtremeLatencyProfile` over the scenarios
that are left. -/
def latencyProfileLoop (obj oldObj : configv1.Node) : List rejectionScenario → Option field.Error
  | [] => none
  | sc :: rest =>
    if oldObj.Spec.WorkerLatencyProfile = sc.fromProfile
        ∧ obj.Spec.WorkerLatencyProfile = sc.toProfile then
      some (field.Invalid (field.NewPath "spec" "workerLatencyProfile")
        obj.Spec.WorkerLatencyProfile
        ("cannot update worker latency profile from "
          ++ gostrings.Quote oldObj.Spec.WorkerLatencyProfile ++ " to "
          ++ gostrings.Quote obj.Spec.WorkerLatencyProfile
          ++ " as extreme profile transition is unsupported, please select any other profile with supported transition such as "
          ++ gostrings.Quote configv1.MediumUpdateAverageReaction))
    else latencyProfileLoop obj oldObj rest

/-- The function `validateConfigNodeForExtremeLatencyProfile`; `none` is the nil
error. -/
def validateConfigNodeForExtremeLatencyProfile (obj oldObj : configv1.Node) : Option field.Error :=
  latencyProfileLoop obj oldObj rejectionScenarios

/-- The loop of `validateMinimumKubeletVersion` over the listed nodes. -/
def minimumKubeletVersionLoop (fieldPath : String) (obj : configv1.Node)
    (version : semver.Version) : List corev1.Node → Option field.Error
  | [] => none
  | nd :: rest =>
    let (_, errStr) := minimumkubeletversion.IsKubeletVersionTooOld nd version
    if errStr ≠ "" then
      some (field.Invalid fieldPath obj.Spec.MinimumKubeletVersion errStr)
    else minimumKubeletVersionLoop fieldPath obj version rest

/-- The function `validateMinimumKubeletVersion`; `nodesList` is what
`nodesGetter.Nodes().List` returns, the items or the text of the error. -/
def validateMinimumKubeletVersion (nodesList : Except String (List corev1.Node))
    (obj : configv1.Node) : Option field.Error :=
  if obj.Spec.MinimumKubeletVersion = "" then none
  else
    let fieldPath := field.NewPath "spec" "minimumKubeletVersion"
    match nodesList with
    | .error err =>
      some (field.Forbidden fieldPath ("Getting nodes to compare minimum version " ++ err))
    | .ok nodes =>
      match semver.Parse obj.Spec.MinimumKubeletVersion with
      | .error err =>
        some (field.Invalid fieldPath obj.Spec.MinimumKubeletVersion
          ("Failed to parse submitted version " ++ obj.Spec.MinimumKubeletVersion ++ " " ++ err))
      | .ok version => minimumKubeletVersionLoop fieldPath obj version nodes

/-- Modelled from the spec: a `runtime.Object` as the validator receives it: the
nil interface, a pointer to a config `Node`, or an object of another Go type, of
which the name of the type is kept. -/
inductive Object where
  | Nil
  | Node (n : configv1.Node)
  | Other (typeName : String)
deriving DecidableEq, Repr

/-- Modelled from the spec: the two functions of the package `validation` the
validator calls, `ValidateObjectMeta` (with its arguments `false`,
`RequireNameCluster` and the path `metadata`) and `ValidateObjectMetaUpdate`
(with the path `metadata`); the package is not under src/ and its rules on the
metadata are external to the policy. -/
structure validation where
  ValidateObjectMeta : corev1.ObjectMeta → List field.Error
  ValidateObjectMetaUpdate : corev1.ObjectMeta → corev1.ObjectMeta → List field.Error

/-- The text of the run-time panic of Go on a nil pointer. -/
def nilPointerPanic : String :=
  "runtime error: invalid memory address or nil pointer dereference"

/-- The function `toConfigNodeV1`: the pointer (`none` is nil) and the errors. -/
def toConfigNodeV1 (uncastObj : Object) : Option configv1.Node × List field.Error :=
  match uncastObj with
  | .Nil => (none, [])
  | .Node obj => (some obj, [])
  | .Other typeName =>
    (none, [] ++ [field.NotSupported "kind" typeName ["Node"],
                  field.NotSupported "apiVersion" typeName ["config.openshift.io/v1"]])

/-- The struct `configNodeV1`; `nodesGetter` is what `c.nodesGetter().Nodes().List`
returns, the items or the text of the error. -/
structure configNodeV1 where
  nodesGetter : Except String (List corev1.Node)

/-- The append of an optional field error to a list of errors. -/
def appendError (allErrs : List field.Error) (err : Option field.Error) : List field.Error :=
  match err with
  | some e => allErrs ++ [e]
  | none => allErrs

/-- The method `configNodeV1.ValidateCreate`; the `error` outcome is a run-time
panic, raised where the code reads a field through a nil pointer. -/
def configNodeV1.ValidateCreate (c : configNodeV1) (v : validation) (uncastObj : Object) :
    Except String (List field.Error) :=
  match toConfigNodeV1 uncastObj with
  | (_, e :: es) => .ok (e :: es)
  | (none, []) => .error nilPointerPanic
  | (some obj, []) =>
    let allErrs := [] ++ v.ValidateObjectMeta obj.ObjectMeta
    .ok (appendError allErrs (validateMinimumKubeletVersion c.nodesGetter obj))

/-- The method `configNodeV1.ValidateUpdate`; the `error` outcome is a run-time
panic, raised where the code reads a field through a nil pointer. -/
def configNodeV1.ValidateUpdate (c : configNodeV1) (v : validation)
    (uncastObj uncastOldObj : Object) : Except String (List field.Error) :=
  match toConfigNodeV1 uncastObj with
  | (_, e :: es) => .ok (e :: es)
  | (obj?, []) =>
    match toConfigNodeV1 uncastOldObj with
    | (_, e :: es) => .ok (e :: es)
    | (oldObj?, []) =>
      match obj?, oldObj? with
      | some obj, some oldObj =>
        let allErrs := [] ++ v.ValidateObjectMetaUpdate obj.ObjectMeta oldObj.ObjectMeta
        let allErrs := appendError allErrs (validateConfigNodeForExtremeLatencyProfile obj oldObj)
        .ok (appendError allErrs (validateMinimumKubeletVersion c.nodesGetter obj))
      | _, _ => .error nilPointerPanic

/-- The method `configNodeV1.ValidateStatusUpdate`; the `error` outcome is a
run-time panic, raised where the code reads a field through a nil pointer. -/
def configNodeV1.ValidateStatusUpdate (_c : configNodeV1) (v : validation)
    (uncastObj uncastOldObj : Object) : Except String (List field.Error) :=
  match toConfigNodeV1 uncastObj with
  | (_, e :: es) => .ok (e :: es)
  | (obj?, []) =>
    match toConfigNodeV1 uncastOldObj with
    | (_, e :: es) => .ok (e :: es)
    | (oldObj?, []) =>
      match obj?, oldObj? with
      | some obj, some oldObj =>
        .ok ([] ++ v.ValidateObjectMetaUpdate obj.ObjectMeta oldObj.ObjectMeta)
      | _, _ => .error nilPointerPanic

end node

/-! ## Package `k8s.io/apimachinery/pkg/util/version`

The library is staged in the repository and is not under src/; the node
admission plugin calls its `ParseSemantic`, `AtLeast` and `String`. -/

namespace utilversion

/-- Modelled from the spec: the struct `Version`. -/
structure Version where
  components : List Nat
  semver : Bool
  preRelease : String
  buildMetadata : String
deriving DecidableEq, Repr

/-- Modelled from the spec: the class `\s` of a Go regular expression. -/
def isSpace (c : Char) : Bool :=
  c = '\t' ∨ c = '\n' ∨ c = Char.ofNat 12 ∨ c = '\r' ∨ c = ' '

/-- Modelled from the spec: the class `[0-9]`. -/
def isNumberChar (c : Char) : Bool := '0' ≤ c ∧ c ≤ '9'

/-- Modelled from the spec: the class `[0-9A-Za-z-]`. -/
def isIdentChar (c : Char) : Bool :=
  ('0' ≤ c ∧ c ≤ '9') ∨ ('A' ≤ c ∧ c ≤ 'Z') ∨ ('a' ≤ c ∧ c ≤ 'z') ∨ c = '-'

/-- Modelled from the spec: greedy continuation of `X+(?:\.X+)*` once inside a run of the class `p`:
what is matched and what is left. -/
def dottedTail (p : Char → Bool) : List Char → List Char × List Char
  | [] => ([], [])
  | c :: cs =>
    if p c then
      let (n, r) := dottedTail p cs
      (c :: n, r)
    else if c = '.' then
      match cs with
      | d :: _ =>
        if p d then
          let (n, r) := dottedTail p cs
          (c :: n, r)
        else ([], c :: cs)
      | [] => ([], c :: cs)
    else ([], c :: cs)

/-- Modelled from the spec:
greedy match of `X+(?:\.X+)*` at the front of a string, for the class `p`. -/
def dotted (p : Char → Bool) : List Char → Option (List Char × List Char)
  | [] => none
  | c :: cs => if p c then some (dottedTail p (c :: cs)) else none

/-- Modelled from the spec: the regular expression `versionMatchRE`,
`^\s*v?([0-9]+(?:\.[0-9]+)*)(.*)*$`, of the version library, which is not under
src/; the numeric part and the rest, which holds no line feed. -/
def versionMatch (str : List Char) : Option (List Char × List Char) :=
  let s1 := str.dropWhile isSpace
  let s2 := match s1 with
    | 'v' :: t => t
    | _ => s1
  match dotted isNumberChar s2 with
  | none => none
  | some (nums, extra) => if extra.contains '\n' then none else some (nums, extra)

/-- Modelled from the spec: the optional group `(?:c(X+(?:\.X+)*))?` of `extraMatchRE`: the capture
(empty when the group is skipped) and what is left; `none` when `c` is there
without a match after it. -/
def optionalGroup (c : Char) (s : List Char) : Option (List Char × List Char) :=
  match s with
  | [] => some ([], [])
  | x :: xs => if x = c then dotted isIdentChar xs else some ([], x :: xs)

/-- Modelled from the spec: the regular expression `extraMatchRE` of the version
library, which is not under src/; an optional `-` pre-release, an optional `+`
build part, then white space to the end. -/
def extraMatch (extra : List Char) : Option (List Char × List Char) :=
  match optionalGroup '-' extra with
  | none => none
  | some (pre, r1) =>
    match optionalGroup '+' r1 with
    | none => none
    | some (build, r2) => if r2.all isSpace then some (pre, build) else none

/-- Modelled from the spec:
the loop of `parse` over the numeric components, `i` being the index of the
first of them. -/
def parseComponents (str : String) (semver : Bool) : Nat → List String → Except String (List Nat)
  | _, [] => .ok []
  | i, comp :: rest =>
    if (i = 0 ∨ semver = true) ∧ gostrings.HasPrefix comp "0" = true ∧ comp ≠ "0" then
      .error ("illegal zero-prefixed version component " ++ gostrings.Quote comp ++ " in "
        ++ gostrings.Quote str)
    else match gostrings.ParseUint comp with
      | .error err =>
        .error ("illegal non-numeric version component " ++ gostrings.Quote comp ++ " in "
          ++ gostrings.Quote str ++ ": " ++ err)
      | .ok num =>
        match parseComponents str semver (i + 1) rest with
        | .error e => .error e
        | .ok more => .ok (num :: more)

/-- Modelled from the spec:
the loop of `parse` over the fields of the pre-release: a numeric field has
no leading zero. -/
def checkPreRelease (str : String) : List String → Except String Unit
  | [] => .ok ()
  | comp :: rest =>
    match gostrings.ParseUint comp with
    | .ok _ =>
      if gostrings.HasPrefix comp "0" = true ∧ comp ≠ "0" then
        .error ("illegal zero-prefixed version component " ++ gostrings.Quote comp ++ " in "
          ++ gostrings.Quote str)
      else checkPreRelease str rest
    | .error _ => checkPreRelease str rest

/-- Modelled from the spec: the function `parse` of the version library, which is
not under src/; with `semver` it accepts `X.Y.Z` with an optional pre-release and
build part, white space around it and one `v` before it. -/
def parse (str : String) (semver : Bool) : Except String Version :=
  match versionMatch str.data with
  | none => .error ("could not parse " ++ gostrings.Quote str ++ " as version")
  | some (numbers, extra) =>
    let components := (gostrings.splitOn '.' numbers).map String.mk
    if (semver = true ∧ components.length ≠ 3) ∨ (semver = false ∧ components.length < 2) then
      .error ("illegal version string " ++ gostrings.Quote str)
    else match parseComponents str semver 0 components with
      | .error e => .error e
      | .ok comps =>
        if semver = true ∧ extra ≠ [] then
          match extraMatch extra with
          | none =>
            .error ("could not parse pre-release/metadata (" ++ String.mk extra ++ ") in version "
              ++ gostrings.Quote str)
          | some (pre, build) =>
            match checkPreRelease str ((gostrings.splitOn '.' pre).map String.mk) with
            | .error e => .error e
            | .ok _ =>
              .ok { components := comps, semver := semver, preRelease := String.mk pre,
                    buildMetadata := String.mk build }
        else .ok { components := comps, semver := semver, preRelease := "", buildMetadata := "" }

/-- Modelled from the spec: the function `ParseSemantic`. -/
def ParseSemantic (str : String) : Except String Version :=
  parse str true

/-- Modelled from the spec: the method `Version.String`. -/
def Version.String (v : Version) : String :=
  String.intercalate "." (v.components.map gostrings.FormatUint)
    ++ (if v.preRelease ≠ "" then "-" ++ v.preRelease else "")
    ++ (if v.buildMetadata ≠ "" then "+" ++ v.buildMetadata else "")

/-- Modelled from the spec: the function `onlyZeros`. -/
def onlyZeros (array : List Nat) : Bool :=
  array.all (fun num => num = 0)

/-- Modelled from the spec: the first part of `compareInternal`: the numeric components, and the
components one side has more than the other; `0` when they do not decide. -/
def compareComponents : List Nat → List Nat → Int
  | [], [] => 0
  | x :: xs, [] => if !onlyZeros (x :: xs) then 1 else 0
  | [], y :: ys => if !onlyZeros (y :: ys) then -1 else 0
  | x :: xs, y :: ys =>
    if y < x then 1
    else if y > x then -1
    else compareComponents xs ys

/-- Modelled from the spec:
the last part of `compareInternal`: the fields of two pre-releases, and the
number of fields. -/
def comparePreRelease : List String → List String → Int
  | [], [] => 0
  | _ :: _, [] => 1
  | [], _ :: _ => -1
  | a :: as, b :: bs =>
    if a = b then comparePreRelease as bs
    else
      let byString : Int := if gostrings.Less b a then 1 else -1
      match gostrings.ParseUint a, gostrings.ParseUint b with
      | .ok vNum, .ok oNum =>
        if oNum < vNum then 1
        else if oNum > vNum then -1
        else byString
      | _, _ => byString

/-- Modelled from the spec: the method `compareInternal` of the version library,
which is not under src/; exact semantic-version precedence, `-1`, `0` or `1`. -/
def Version.compareInternal (v other : Version) : Int :=
  let c := compareComponents v.components other.components
  if c ≠ 0 then c
  else if !v.semver || !other.semver then 0
  else if v.preRelease = "" ∧ other.preRelease ≠ "" then 1
  else if v.preRelease ≠ "" ∧ other.preRelease = "" then -1
  else if v.preRelease = other.preRelease then 0
  else comparePreRelease ((gostrings.splitOn '.' v.preRelease.data).map String.mk)
    ((gostrings.splitOn '.' other.preRelease.data).map String.mk)

/-- Modelled from the spec: the method `Version.AtLeast`. -/
def Version.AtLeast (v min : Version) : Bool :=
  v.compareInternal min ≠ -1

end utilversion

/-! ## Package `nodeversion`: the node admission plugin -/

namespace nodeversion

/-- Modelled from the spec: the type `admission.Operation`. -/
inductive Operation where
  | Create
  | Update
  | Delete
  | Connect
deriving DecidableEq, Repr

/-- Modelled from the spec: the struct `schema.GroupVersionResource`. -/
structure GroupVersionResource where
  Group : String
  Version : String
  Resource : String
deriving DecidableEq, Repr

/-- Modelled from the spec: the method `GroupVersionResource.GroupResource`. -/
def GroupVersionResource.GroupResource (gvr : GroupVersionResource) : schema.GroupResource :=
  { Group := gvr.Group, Resource := gvr.Resource }

/-- Modelled from the spec:
a `runtime.Object` as the plugin sees it: the nil interface, a node, or an
object of another Go type, of which only the name of the type is kept. -/
inductive Object where
  | Nil
  | Node (n : corev1.Node)
  | Other (typeName : String)
deriving DecidableEq, Repr

/-- Modelled from the spec: the interface `admission.Attributes`, as a record of what its getters
return. -/
structure Attributes where
  Name : String
  Namespace : String
  Resource : nodeversion.GroupVersionResource
  Subresource : String
  Operation : nodeversion.Operation
  Object : nodeversion.Object
  OldObject : nodeversion.Object
  UserInfo : user.Info
deriving DecidableEq, Repr

/-- Modelled from the spec:
the error `admission.NewForbidden(a, internalError)` returns: a Forbidden
status that wraps the text of `internalError`. -/
structure Forbidden where
  internalError : String
deriving DecidableEq, Repr

/-- Modelled from the spec: the function `admission.NewForbidden`. -/
def NewForbidden (_a : Attributes) (internalError : String) : Forbidden :=
  { internalError := internalError }

/-- The struct `nodeVersionPolicy`. -/
structure nodeVersionPolicy where
  MinimumKubeletVersion : String
deriving DecidableEq, Repr

/-- The struct `VersionConfig`. -/
structure VersionConfig where
  NodeVersionPolicy : nodeVersionPolicy
deriving DecidableEq, Repr

/-- The struct `Plugin`: the node identifier, as the function `NodeIdentity`, and
the static minimum. -/
structure Plugin where
  nodeIdentifier : user.Info → String × Bool
  minKubeletVersion : utilversion.Version

/-- The function `NewPlugin`; `configFile` is `none` for the nil reader and else
what the YAML-or-JSON decoder returns for it. -/
def NewPlugin (nodeIdentifier : user.Info → String × Bool)
    (configFile : Option (Except String VersionConfig)) : Except String Plugin :=
  match configFile with
  | none => .error "no config specified"
  | some (.error err) => .error err
  | some (.ok config) =>
    match utilversion.ParseSemantic config.NodeVersionPolicy.MinimumKubeletVersion with
    | .error err => .error err
    | .ok minKubeletVersion =>
      .ok { nodeIdentifier := nodeIdentifier, minKubeletVersion := minKubeletVersion }

/-- The variable `nodeResource`. -/
def nodeResource : schema.GroupResource := api.Resource "nodes"

/-- The verb `%T` on an object. -/
def Object.typeName : Object → String
  | .Nil => "<nil>"
  | .Node _ => "*core.Node"
  | .Other t => t

/-- The method `Plugin.validateVersion`; `none` is the nil error. -/
def Plugin.validateVersion (p : Plugin) (nd : corev1.Node) : Option String :=
  match utilversion.ParseSemantic nd.Status.NodeInfo.KubeletVersion with
  | .error err =>
    some ("unexpected version " ++ nd.Status.NodeInfo.KubeletVersion ++ ": " ++ err)
  | .ok givenVersion =>
    if !givenVersion.AtLeast p.minKubeletVersion then
      some ("registered kubelet version " ++ givenVersion.String
        ++ " lower than configured minimum " ++ p.minKubeletVersion.String)
    else none

/-- The block of `admitNode` run for one operation: the object is a node and its
version passes. -/
def Plugin.checkObject (p : Plugin) (a : Attributes) : Option Forbidden :=
  match a.Object with
  | .Node nd =>
    match p.validateVersion nd with
    | some err => some (NewForbidden a err)
    | none => none
  | obj => some (NewForbidden a ("unexpected type " ++ obj.typeName))

/-- The method `Plugin.admitNode`; `none` is the nil error. -/
def Plugin.admitNode (p : Plugin) (nodeName : String) (a : Attributes) : Option Forbidden :=
  let requestedName := a.Name
  if requestedName ≠ nodeName then
    some (NewForbidden a ("node " ++ gostrings.Quote nodeName ++ " is not allowed to modify node "
      ++ gostrings.Quote requestedName))
  else
    let created : Option Forbidden :=
      if a.Operation = Operation.Create then p.checkObject a else none
    match created with
    | some err => some err
    | none =>
      if a.Operation = Operation.Update then p.checkObject a else none

/-- The method `Plugin.Admit`; `none` is the nil error (the request is
admitted). -/
def Plugin.Admit (p : Plugin) (a : Attributes) : Option Forbidden :=
  let (nodeName, isNode) := p.nodeIdentifier a.UserInfo
  if !isNode then none
  else if nodeName.length = 0 then
    some (NewForbidden a ("could not determine node from user " ++ gostrings.Quote a.UserInfo.Name))
  else if a.Resource.GroupResource = nodeResource then p.admitNode nodeName a
  else none

end nodeversion

/-! ## Reference predicates the claims are stated with -/

namespace gostrings

/-- The string `s` contains `part`: it is `part` with some text before and some
text after. -/
def Mentions (s part : String) : Prop :=
  ∃ before after, s = before ++ part ++ after

/-- The list `part` occurs in the list `s`, at its front or further on. -/
def containsChars (part : List Char) : List Char → Bool
  | [] => (dropFront part []).isSome
  | c :: cs => (dropFront part (c :: cs)).isSome || containsChars part cs

/-- The function `strings.Contains(s, part)`. -/
def Contains (s part : String) : Bool :=
  containsChars part.data s.data

end gostrings

namespace semver

/-- Reference precedence of two pre-release fields, after the rules of semantic
versioning: a numeric field is lower than an alphanumeric one, two numeric
fields compare by value and two alphanumeric ones in the order of strings. -/
def PRVersion.precedes (x y : PRVersion) : Bool :=
  match x.IsNum, y.IsNum with
  | true, true => x.VersionNum < y.VersionNum
  | true, false => true
  | false, true => false
  | false, false => gostrings.Less x.VersionStr y.VersionStr

/-- Reference precedence of two lists of pre-release fields: the first field that
differs decides, and a list that is a proper start of the other is lower. -/
def prePrecedes : List PRVersion → List PRVersion → Bool
  | [], [] => false
  | [], _ :: _ => true
  | _ :: _, [] => false
  | x :: xs, y :: ys => x.precedes y || (!(y.precedes x) && prePrecedes xs ys)

/-- Reference strict precedence `a < b` of semantic versions: major, minor and
patch compare numerically in this order; when they are equal a version with a
pre-release is lower than one without, and two pre-releases compare field by
field.  Build metadata does not count. -/
def Version.precedes (a b : Version) : Bool :=
  a.Major < b.Major ∨ (a.Major = b.Major ∧ (a.Minor < b.Minor ∨ (a.Minor = b.Minor ∧
    (a.Patch < b.Patch ∨ (a.Patch = b.Patch ∧
      ((a.Pre ≠ [] ∧ b.Pre = []) ∨ (a.Pre ≠ [] ∧ b.Pre ≠ [] ∧ prePrecedes a.Pre b.Pre = true)))))))

/-- The release of a version: its pre-release and build metadata discarded. -/
def Version.release (v : Version) : Version :=
  { v with Pre := [], Build := [] }

end semver

namespace minimumkubeletversion

/-- A reported version with one leading `v` removed, when it has one. -/
def removeLeadingV (reported : String) : String :=
  match reported.data with
  | 'v' :: rest => String.mk rest
  | _ => reported

/-- The release-only reference comparison: the reported version, with one leading
`v` removed, parses as a semantic version, and the floor is strictly greater in
precedence than the release of that version. -/
def releaseOnlyTooOld (reported : String) (floor : semver.Version) : Bool :=
  match semver.Parse (removeLeadingV reported) with
  | .error _ => false
  | .ok candidate => candidate.release.precedes floor

/-- The exempt requests as the specification names them: a resource request
that is a `get` or `update` on nodes (the agent records, which are in the core
API group), or that is on subjectaccessreviews, in whatever API group. -/
def exemptRequestAsSpecified (attrs : Attributes) : Bool :=
  attrs.IsResourceRequest &&
    ((attrs.APIGroup == api.GroupName && attrs.Resource == "nodes"
        && (attrs.Verb == "get" || attrs.Verb == "update"))
      || attrs.Resource == "subjectaccessreviews")

/-- The conditions under which the authorizer is to deny, as the specification
states them: a minimum is configured, the caller is a node with a non-empty
name, the request is not one of the exempt requests, the cache has the record
of the caller, and that record is too old. -/
def denyConditionsAsSpecified (m : minimumKubeletVersionAuth)
    (minimumKubeletVersion : Option semver.Version) (attrs : Attributes) : Prop :=
  ∃ minVersion nd,
    minimumKubeletVersion = some minVersion
    ∧ (m.nodeIdentifier attrs.User).2 = true
    ∧ (m.nodeIdentifier attrs.User).1 ≠ ""
    ∧ exemptRequestAsSpecified attrs = false
    ∧ m.nodeInformer (m.nodeIdentifier attrs.User).1 = .ok nd
    ∧ (IsKubeletVersionTooOld nd minVersion).1 = true

/-- The conditions under which the code of `Authorize` denies: those of
`denyConditionsAsSpecified`, with the requests the switch short-circuits
(`exemptRequest`) in the place of the exempt requests of the specification. -/
def denyConditions (m : minimumKubeletVersionAuth) (minimumKubeletVersion : Option semver.Version)
    (attrs : Attributes) : Prop :=
  ∃ minVersion nd,
    minimumKubeletVersion = some minVersion
    ∧ (m.nodeIdentifier attrs.User).2 = true
    ∧ (m.nodeIdentifier attrs.User).1 ≠ ""
    ∧ exemptRequest attrs = false
    ∧ m.nodeInformer (m.nodeIdentifier attrs.User).1 = .ok nd
    ∧ (IsKubeletVersionTooOld nd minVersion).1 = true

end minimumkubeletversion

namespace node

/-- The update of the worker latency profile from `old` to `new` is one of the
four forbidden ones: unset to Low, Low to unset, Default to Low, Low to Default. -/
def forbiddenTransition (old new : String) : Prop :=
  (old = "" ∧ new = configv1.LowUpdateSlowReaction)
    ∨ (old = configv1.LowUpdateSlowReaction ∧ new = "")
    ∨ (old = configv1.DefaultUpdateDefaultReaction ∧ new = configv1.LowUpdateSlowReaction)
    ∨ (old = configv1.LowUpdateSlowReaction ∧ new = configv1.DefaultUpdateDefaultReaction)

/-- An agent record blocks the threshold `version`: it is too old for it, or the
version it reports does not parse. -/
def agentFails (nd : corev1.Node) (version : semver.Version) : Prop :=
  (minimumkubeletversion.IsKubeletVersionTooOld nd version).1 = true
    ∨ ∃ err, semver.Parse
        (minimumkubeletversion.removeLeadingV nd.Status.NodeInfo.KubeletVersion) = .error err

end node

/-! ## Concrete inputs of the examples -/

namespace examples

/-- The cluster config object with the given latency profile and minimum. -/
def config (workerLatencyProfile minimumKubeletVersion : String) : configv1.Node :=
  { ObjectMeta := { Name := "cluster" },
    Spec := { WorkerLatencyProfile := workerLatencyProfile,
              MinimumKubeletVersion := minimumKubeletVersion } }

/-- An agent record with the given name and reported kubelet version. -/
def agent (name kubeletVersion : String) : corev1.Node :=
  { ObjectMeta := { Name := name }, Status := { NodeInfo := { KubeletVersion := kubeletVersion } } }

/-- The version `1.18.0`, as a minimum of the authorizer. -/
def v1_18_0 : semver.Version :=
  { Major := 1, Minor := 18, Patch := 0, Pre := [], Build := [] }

/-- The user of the kubelet of node `name`. -/
def kubeletUser (name : String) : user.Info :=
  { Name := "system:node:" ++ name, UID := "", Groups := ["system:nodes"] }

/-- An authorizer for which every caller is the node `name`, and whose cache
holds one record for every name, reporting `kubeletVersion`. -/
def authFor (name kubeletVersion : String) : minimumkubeletversion.minimumKubeletVersionAuth :=
  { nodeIdentifier := fun _ => (name, true),
    nodeInformer := fun n => .ok (agent n kubeletVersion) }

/-- A resource request of node `name` on the node object `target`. -/
def nodeRequest (name verb target : String) : minimumkubeletversion.Attributes :=
  { User := kubeletUser name, Verb := verb, Namespace := "", APIGroup := "", Resource := "nodes",
    Subresource := "", Name := target, IsResourceRequest := true,
    Path := "/api/v1/nodes/" ++ target }


/-- A node admission plugin for which every caller is the node `name`, with the
static minimum `minKubeletVersion`. -/
def pluginFor (name : String) (minKubeletVersion : utilversion.Version) : nodeversion.Plugin :=
  { nodeIdentifier := fun _ => (name, true), minKubeletVersion := minKubeletVersion }

/-- The version `1.18.0`, as the static minimum of the node admission plugin. -/
def static1_18_0 : utilversion.Version :=
  { components := [1, 18, 0], semver := true, preRelease := "", buildMetadata := "" }

/-- The version `1.18.0-rc.1`, as a static minimum of the node admission plugin. -/
def static1_18_0_rc1 : utilversion.Version :=
  { components := [1, 18, 0], semver := true, preRelease := "rc.1", buildMetadata := "" }

/-- A resource request of node `name` that creates a subject access review in
the API group `group`. -/
def sarRequest (name group : String) : minimumkubeletversion.Attributes :=
  { User := kubeletUser name, Verb := "create", Namespace := "", APIGroup := group,
    Resource := "subjectaccessreviews", Subresource := "", Name := "", IsResourceRequest := true,
    Path := "/apis/" ++ group ++ "/v1/subjectaccessreviews" }

/-- A validation of the metadata that finds nothing to report. -/
def noMetaErrors : node.validation :=
  { ValidateObjectMeta := fun _ => [], ValidateObjectMetaUpdate := fun _ _ => [] }

/-- The request of node `name` with operation `op` on the node object `target`,
the object of the request being `obj`. -/
def admitRequest (name : String) (op : nodeversion.Operation) (target : String)
    (obj : nodeversion.Object) : nodeversion.Attributes :=
  { Name := target, Namespace := "",
    Resource := { Group := "", Version := "v1", Resource := "nodes" },
    Subresource := "", Operation := op, Object := obj, OldObject := nodeversion.Object.Nil,
    UserInfo := kubeletUser name }

/-- The update by node `name` of the status subresource of the node object
`target`, the object of the request being `obj`. -/
def statusUpdate (name target : String) (obj : nodeversion.Object) : nodeversion.Attributes :=
  { Name := target, Namespace := "",
    Resource := { Group := "", Version := "v1", Resource := "nodes" },
    Subresource := "status", Operation := nodeversion.Operation.Update, Object := obj,
    OldObject := nodeversion.Object.Nil, UserInfo := kubeletUser name }

/-- The request of node `name` that creates the pod `target`. -/
def podRequest (name target : String) : nodeversion.Attributes :=
  { Name := target, Namespace := "default",
    Resource := { Group := "", Version := "v1", Resource := "pods" },
    Subresource := "", Operation := nodeversion.Operation.Create,
    Object := nodeversion.Object.Other "*core.Pod", OldObject := nodeversion.Object.Nil,
    UserInfo := kubeletUser name }

end examples

/-! ## Lemmas -/

namespace gostrings

theorem lessChars_cases (a b : List Char) :
    (lessChars a b = true ∧ lessChars b a = false ∧ a ≠ b)
      ∨ (lessChars a b = false ∧ lessChars b a = false ∧ a = b)
      ∨ (lessChars a b = false ∧ lessChars b a = true ∧ a ≠ b) := by
  induction a generalizing b with
  | nil =>
    cases b with
    | nil => right; left; simp [lessChars]
    | cons y ys => left; simp [lessChars]
  | cons x xs ih =>
    cases b with
    | nil => right; right; simp [lessChars]
    | cons y ys =>
      rcases lt_trichotomy x y with h | h | h
      · left
        have h2 : ¬ y < x := lt_asymm h
        have h3 : ¬ x = y := ne_of_lt h
        simp [lessChars, h, h2, h3]
      · subst h
        have h1 : ¬ x < x := lt_irrefl x
        rcases ih ys with ⟨a1, a2, a3⟩ | ⟨a1, a2, a3⟩ | ⟨a1, a2, a3⟩
        · left; simp [lessChars, h1, a1, a2, a3]
        · right; left
          subst a3
          simp [lessChars, h1, a1]
        · right; right; simp [lessChars, h1, a1, a2, a3]
      · right; right
        have h2 : ¬ x < y := lt_asymm h
        have h3 : ¬ x = y := (ne_of_lt h).symm
        simp [lessChars, h, h2, h3]

theorem Less_cases (a b : String) :
    (Less a b = true ∧ Less b a = false ∧ a ≠ b)
      ∨ (Less a b = false ∧ Less b a = false ∧ a = b)
      ∨ (Less a b = false ∧ Less b a = true ∧ a ≠ b) := by
  unfold Less
  have hne : a.data ≠ b.data → a ≠ b := fun h e => h (by rw [e])
  rcases lessChars_cases a.data b.data with ⟨h1, h2, h3⟩ | ⟨h1, h2, h3⟩ | ⟨h1, h2, h3⟩
  · exact Or.inl ⟨h1, h2, hne h3⟩
  · exact Or.inr (Or.inl ⟨h1, h2, String.ext h3⟩)
  · exact Or.inr (Or.inr ⟨h1, h2, hne h3⟩)

theorem length_eq_zero (s : String) : s.length = 0 ↔ s = "" := by
  constructor
  · intro h
    have hd : s.data = [] := List.length_eq_zero.mp h
    exact String.ext hd
  · intro h
    subst h
    rfl

end gostrings


namespace minimumkubeletversion

/-- With a minimum configured, `Authorize` is a chain of four tests: not a node,
no node name, an exempt request, and else the comparison of versions. -/
theorem Authorize_some (m : minimumKubeletVersionAuth) (minVersion : semver.Version)
    (attrs : Attributes) :
    Authorize m (some minVersion) attrs =
      if (m.nodeIdentifier attrs.User).2 = false then
        ⟨.DecisionNoOpinion, "", none, [Call.NodeIdentity attrs.User]⟩
      else if (m.nodeIdentifier attrs.User).1 = "" then
        ⟨.DecisionNoOpinion, "unknown node for user " ++ gostrings.Quote attrs.User.Name, none,
          [Call.NodeIdentity attrs.User]⟩
      else if exemptRequest attrs = true then
        ⟨.DecisionNoOpinion, "", none, [Call.NodeIdentity attrs.User]⟩
      else authorizeByVersion m minVersion attrs (m.nodeIdentifier attrs.User).1 := by
  unfold Authorize
  rcases hid : m.nodeIdentifier attrs.User with ⟨nodeName, isNode⟩
  cases isNode
  · simp
  · by_cases hname : nodeName = ""
    · simp [hname]
    · have hlen : ¬ nodeName.length = 0 := fun h => hname ((gostrings.length_eq_zero _).mp h)
      simp only [hlen, hname, Bool.not_true, Bool.false_eq_true, if_false]
      by_cases hres : attrs.IsResourceRequest = true
      · by_cases hnodes :
            schema.GroupResource.mk attrs.APIGroup attrs.Resource = api.Resource "nodes"
        · have hg : attrs.APIGroup = "" ∧ attrs.Resource = "nodes" := by
            simpa [api.Resource, api.GroupName] using hnodes
          by_cases hverb : attrs.Verb = "get" ∨ attrs.Verb = "update"
          · have hex : exemptRequest attrs = true := by
              rcases hverb with hv | hv <;>
                simp [exemptRequest, hres, hg.1, hg.2, hv, api.GroupName]
            simp [hres, hnodes, hverb, hex]
          · have hex : ¬ exemptRequest attrs = true := by
              have hv := not_or.mp hverb
              simp [exemptRequest, hres, hg.1, hg.2, hv.1, hv.2, api.GroupName]
            simp [hres, hnodes, hverb, hex]
        · by_cases hsar :
              schema.GroupResource.mk attrs.APIGroup attrs.Resource
                = api.Resource "subjectaccessreviews"
          · have hg : attrs.APIGroup = "" ∧ attrs.Resource = "subjectaccessreviews" := by
              simpa [api.Resource, api.GroupName] using hsar
            have hex : exemptRequest attrs = true := by
              simp [exemptRequest, hres, hg.1, hg.2, api.GroupName]
            have hne : api.Resource "subjectaccessreviews" ≠ api.Resource "nodes" := by decide
            simp [hres, hsar, hex, hne]
          · have hex : ¬ exemptRequest attrs = true := by
              have h1 : ¬ (attrs.APIGroup = "" ∧ attrs.Resource = "nodes") := by
                simpa [api.Resource, api.GroupName] using hnodes
              have h2 : ¬ (attrs.APIGroup = "" ∧ attrs.Resource = "subjectaccessreviews") := by
                simpa [api.Resource, api.GroupName] using hsar
              simp only [exemptRequest, hres, api.GroupName, Bool.true_and, Bool.or_eq_true,
                Bool.and_eq_true, beq_iff_eq, not_or]
              constructor
              · intro h
                exact h1 ⟨h.1.1, h.1.2⟩
              · exact h2
            simp [hres, hnodes, hsar, hex]
      · have hex : ¬ exemptRequest attrs = true := by
          simp [exemptRequest, hres]
        simp [hres, hex]

/-- The comparison of versions denies exactly when the cache has the record and
the record is too old; else it has no opinion. -/
theorem authorizeByVersion_decision (m : minimumKubeletVersionAuth) (minVersion : semver.Version)
    (attrs : Attributes) (nodeName : String) :
    ((∃ nd, m.nodeInformer nodeName = .ok nd ∧ (IsKubeletVersionTooOld nd minVersion).1 = true)
        ∧ (authorizeByVersion m minVersion attrs nodeName).Decision = .DecisionDeny)
      ∨ ((¬ ∃ nd, m.nodeInformer nodeName = .ok nd
            ∧ (IsKubeletVersionTooOld nd minVersion).1 = true)
        ∧ (authorizeByVersion m minVersion attrs nodeName).Decision = .DecisionNoOpinion) := by
  unfold authorizeByVersion
  cases hget : m.nodeInformer nodeName with
  | error err => right; simp
  | ok nd =>
    rcases hold : IsKubeletVersionTooOld nd minVersion with ⟨tooOld, errStr⟩
    cases tooOld
    · right; simp [hold]
    · left; simp [hold]

theorem authorizeByVersion_err (m : minimumKubeletVersionAuth) (minVersion : semver.Version)
    (attrs : Attributes) (nodeName : String) :
    (authorizeByVersion m minVersion attrs nodeName).Err = none := by
  unfold authorizeByVersion
  cases hget : m.nodeInformer nodeName with
  | error err => simp
  | ok nd =>
    rcases hold : IsKubeletVersionTooOld nd minVersion with ⟨tooOld, errStr⟩
    cases tooOld <;> simp [hold]

end minimumkubeletversion

/-! ## The authorizer: which branches deny and which abstain -/

/-- What the code of `Authorize` does: it returns Deny exactly when a minimum is
configured, the caller is a node with a non-empty name, the switch does not
short-circuit the request (`exemptRequest`), the cache lookup of the caller
succeeds and `IsKubeletVersionTooOld` is true for the record; in every other
case it returns no-opinion. -/
theorem Authorize_deny_iff_not_shortCircuited (m : minimumkubeletversion.minimumKubeletVersionAuth)
    (minimumKubeletVersion : Option semver.Version) (attrs : minimumkubeletversion.Attributes) :
    (minimumkubeletversion.denyConditions m minimumKubeletVersion attrs
        ∧ (minimumkubeletversion.Authorize m minimumKubeletVersion attrs).Decision
            = minimumkubeletversion.Decision.DecisionDeny)
      ∨ (¬ minimumkubeletversion.denyConditions m minimumKubeletVersion attrs
        ∧ (minimumkubeletversion.Authorize m minimumKubeletVersion attrs).Decision
            = minimumkubeletversion.Decision.DecisionNoOpinion) := by
  cases minimumKubeletVersion with
  | none =>
    right
    refine ⟨?_, rfl⟩
    rintro ⟨minVersion, nd, h, _⟩
    cases h
  | some minVersion =>
    rw [minimumkubeletversion.Authorize_some]
    by_cases hnode : (m.nodeIdentifier attrs.User).2 = false
    · right
      refine ⟨?_, by simp [hnode]⟩
      rintro ⟨_, _, _, h, _⟩
      simp [hnode] at h
    · by_cases hname : (m.nodeIdentifier attrs.User).1 = ""
      · right
        refine ⟨?_, by simp [hnode, hname]⟩
        rintro ⟨_, _, _, _, h, _⟩
        exact h hname
      · by_cases hex : minimumkubeletversion.exemptRequest attrs = true
        · right
          refine ⟨?_, by simp [hnode, hname, hex]⟩
          rintro ⟨_, _, _, _, _, h, _⟩
          simp [hex] at h
        · simp only [hnode, hname, hex, if_false]
          rcases minimumkubeletversion.authorizeByVersion_decision m minVersion attrs
              (m.nodeIdentifier attrs.User).1 with ⟨⟨nd, hget, hold⟩, hd⟩ | ⟨hno, hd⟩
          · left
            refine ⟨⟨minVersion, nd, rfl, ?_, hname, ?_, hget, hold⟩, hd⟩
            · simpa using hnode
            · simpa using hex
          · right
            refine ⟨?_, hd⟩
            rintro ⟨minV, nd, hmin, _, _, _, hget, hold⟩
            cases hmin
            exact hno ⟨nd, hget, hold⟩

/-- Apart from the requests the specification exempts and the switch does not
short-circuit, `Authorize` denies exactly under the conditions the
specification states, and returns no-opinion otherwise. -/
theorem Authorize_deny_iff_where_exemptions_agree
    (m : minimumkubeletversion.minimumKubeletVersionAuth)
    (minimumKubeletVersion : Option semver.Version) (attrs : minimumkubeletversion.Attributes)
    (hagree : minimumkubeletversion.exemptRequestAsSpecified attrs
      = minimumkubeletversion.exemptRequest attrs) :
    (minimumkubeletversion.denyConditionsAsSpecified m minimumKubeletVersion attrs
        ∧ (minimumkubeletversion.Authorize m minimumKubeletVersion attrs).Decision
            = minimumkubeletversion.Decision.DecisionDeny)
      ∨ (¬ minimumkubeletversion.denyConditionsAsSpecified m minimumKubeletVersion attrs
        ∧ (minimumkubeletversion.Authorize m minimumKubeletVersion attrs).Decision
            = minimumkubeletversion.Decision.DecisionNoOpinion) := by
  have hiff : minimumkubeletversion.denyConditionsAsSpecified m minimumKubeletVersion attrs
      ↔ minimumkubeletversion.denyConditions m minimumKubeletVersion attrs := by
    unfold minimumkubeletversion.denyConditionsAsSpecified minimumkubeletversion.denyConditions
    rw [hagree]
  rw [hiff]
  exact Authorize_deny_iff_not_shortCircuited m minimumKubeletVersion attrs

/-- C1, at the failing input: node-7 reports 1.17.0 under the minimum 1.18.0 and
creates a subject access review in the API group `authorization.k8s.io`.  The
request is one of the exempt requests of the specification, so the conditions
for Deny do not all hold, and `Authorize` returns Deny: the switch matches
subjectaccessreviews in the core API group only. -/
theorem C1_deny_on_exempt_subject_access_review :
    minimumkubeletversion.exemptRequestAsSpecified
        (examples.sarRequest "node-7" "authorization.k8s.io") = true
    ∧ ¬ minimumkubeletversion.denyConditionsAsSpecified (examples.authFor "node-7" "1.17.0")
        (some examples.v1_18_0) (examples.sarRequest "node-7" "authorization.k8s.io")
    ∧ (minimumkubeletversion.Authorize (examples.authFor "node-7" "1.17.0")
        (some examples.v1_18_0) (examples.sarRequest "node-7" "authorization.k8s.io")).Decision
      = minimumkubeletversion.Decision.DecisionDeny := by
  refine ⟨by decide, ?_, by decide⟩
  rintro ⟨_, _, _, _, _, hex, _⟩
  revert hex
  decide

/-- C2: `Authorize` never returns Allow and never returns an error: its decision
is no-opinion or Deny, for every policy state, caller, request and cache. -/
theorem C2_authorize_never_allows (m : minimumkubeletversion.minimumKubeletVersionAuth)
    (minimumKubeletVersion : Option semver.Version) (attrs : minimumkubeletversion.Attributes) :
    ((minimumkubeletversion.Authorize m minimumKubeletVersion attrs).Decision
          = minimumkubeletversion.Decision.DecisionNoOpinion
        ∨ (minimumkubeletversion.Authorize m minimumKubeletVersion attrs).Decision
          = minimumkubeletversion.Decision.DecisionDeny)
      ∧ (minimumkubeletversion.Authorize m minimumKubeletVersion attrs).Decision
          ≠ minimumkubeletversion.Decision.DecisionAllow
      ∧ (minimumkubeletversion.Authorize m minimumKubeletVersion attrs).Err = none := by
  have hdec : (minimumkubeletversion.Authorize m minimumKubeletVersion attrs).Decision
          = minimumkubeletversion.Decision.DecisionNoOpinion
        ∨ (minimumkubeletversion.Authorize m minimumKubeletVersion attrs).Decision
          = minimumkubeletversion.Decision.DecisionDeny := by
    cases minimumKubeletVersion with
    | none => left; rfl
    | some minVersion =>
      rw [minimumkubeletversion.Authorize_some]
      split_ifs
      · left; rfl
      · left; rfl
      · left; rfl
      · rcases minimumkubeletversion.authorizeByVersion_decision m minVersion attrs
            (m.nodeIdentifier attrs.User).1 with ⟨_, hd⟩ | ⟨_, hd⟩
        · right; exact hd
        · left; exact hd
  refine ⟨hdec, ?_, ?_⟩
  · rcases hdec with h | h <;> rw [h] <;> decide
  · cases minimumKubeletVersion with
    | none => rfl
    | some minVersion =>
      rw [minimumkubeletversion.Authorize_some]
      split_ifs
      · rfl
      · rfl
      · rfl
      · exact minimumkubeletversion.authorizeByVersion_err m minVersion attrs _

/-- C9: with no minimum configured, `Authorize` returns no-opinion with an empty
reason and no error for every caller, request and cache, and it calls neither
the node identifier nor the cache. -/
theorem C9_authorize_unset (m : minimumkubeletversion.minimumKubeletVersionAuth)
    (attrs : minimumkubeletversion.Attributes) :
    (minimumkubeletversion.Authorize m none attrs).Decision
        = minimumkubeletversion.Decision.DecisionNoOpinion
      ∧ (minimumkubeletversion.Authorize m none attrs).Reason = ""
      ∧ (minimumkubeletversion.Authorize m none attrs).Err = none
      ∧ (minimumkubeletversion.Authorize m none attrs).Calls = [] :=
  ⟨rfl, rfl, rfl, rfl⟩

/-- C10: with a minimum configured, a `get` or `update` of a named agent on its
own node record yields no-opinion, whatever the cache holds for the agent (a
version that is too old, one that does not parse, or no record). -/
theorem C10_own_record_get_update (m : minimumkubeletversion.minimumKubeletVersionAuth)
    (minVersion : semver.Version) (attrs : minimumkubeletversion.Attributes) (nodeName : String)
    (hid : m.nodeIdentifier attrs.User = (nodeName, true)) (hname : nodeName ≠ "")
    (hres : attrs.IsResourceRequest = true) (hgroup : attrs.APIGroup = api.GroupName)
    (hresource : attrs.Resource = "nodes") (_hown : attrs.Name = nodeName)
    (hverb : attrs.Verb = "get" ∨ attrs.Verb = "update") :
    (minimumkubeletversion.Authorize m (some minVersion) attrs).Decision
      = minimumkubeletversion.Decision.DecisionNoOpinion := by
  have hex : minimumkubeletversion.exemptRequest attrs = true := by
    rcases hverb with hv | hv <;>
      simp [minimumkubeletversion.exemptRequest, hres, hgroup, hresource, hv]
  rw [minimumkubeletversion.Authorize_some]
  simp [hid, hname, hex]

/-- Witness of C10: node-7 reports 1.17.0 under the minimum 1.18.0, which is too
old and denied on a `list` of nodes, yet its `get` and its `update` of its own
record yield no-opinion; so does its `get` when the cache has no record or one
with an unparsable version. -/
theorem C10_own_record_get_update_witness :
    (minimumkubeletversion.Authorize (examples.authFor "node-7" "1.17.0")
        (some examples.v1_18_0) (examples.nodeRequest "node-7" "list" "")).Decision
      = minimumkubeletversion.Decision.DecisionDeny
    ∧ (minimumkubeletversion.Authorize (examples.authFor "node-7" "1.17.0")
        (some examples.v1_18_0) (examples.nodeRequest "node-7" "get" "node-7")).Decision
      = minimumkubeletversion.Decision.DecisionNoOpinion
    ∧ (minimumkubeletversion.Authorize (examples.authFor "node-7" "1.17.0")
        (some examples.v1_18_0) (examples.nodeRequest "node-7" "update" "node-7")).Decision
      = minimumkubeletversion.Decision.DecisionNoOpinion
    ∧ (minimumkubeletversion.Authorize (examples.authFor "node-7" "not a version")
        (some examples.v1_18_0) (examples.nodeRequest "node-7" "get" "node-7")).Decision
      = minimumkubeletversion.Decision.DecisionNoOpinion
    ∧ (minimumkubeletversion.Authorize
        { nodeIdentifier := fun _ => ("node-7", true), nodeInformer := fun _ => .error "not found" }
        (some examples.v1_18_0) (examples.nodeRequest "node-7" "get" "node-7")).Decision
      = minimumkubeletversion.Decision.DecisionNoOpinion :=
  ⟨by decide,
   C10_own_record_get_update _ _ _ "node-7" rfl (by decide) rfl rfl rfl rfl (Or.inl rfl),
   C10_own_record_get_update _ _ _ "node-7" rfl (by decide) rfl rfl rfl rfl (Or.inr rfl),
   C10_own_record_get_update _ _ _ "node-7" rfl (by decide) rfl rfl rfl rfl (Or.inl rfl),
   C10_own_record_get_update _ _ _ "node-7" rfl (by decide) rfl rfl rfl rfl (Or.inl rfl)⟩

/-! ## The release-only comparison -/

namespace semver

theorem PRVersion.Compare_cases (x y : PRVersion) :
    (x.Compare y = 1 ∧ y.precedes x = true ∧ x.precedes y = false)
      ∨ (x.Compare y = 0 ∧ y.precedes x = false ∧ x.precedes y = false)
      ∨ (x.Compare y = -1 ∧ y.precedes x = false ∧ x.precedes y = true) := by
  unfold PRVersion.Compare PRVersion.precedes
  rcases x with ⟨xs, xn, xb⟩
  rcases y with ⟨ys, yn, yb⟩
  cases xb <;> cases yb <;> simp
  · rcases gostrings.Less_cases xs ys with ⟨h1, h2, h3⟩ | ⟨h1, h2, h3⟩ | ⟨h1, h2, h3⟩
    · right; right
      simp [h1, h2, h3]
    · right; left
      subst h3
      simp [h1]
    · left
      simp [h1, h2, h3]
  · rcases lt_trichotomy xn yn with h | h | h
    · right; right
      have h1 : ¬ xn = yn := ne_of_lt h
      have h2 : ¬ yn < xn := lt_asymm h
      simp [h1, h2, h, Nat.le_of_lt h]
    · right; left
      simp [h]
    · left
      have h1 : ¬ xn = yn := (ne_of_lt h).symm
      simp [h1, h, Nat.le_of_lt h]

theorem comparePre_eq_one (xs ys : List PRVersion) :
    comparePre xs ys = 1 ↔ prePrecedes ys xs = true := by
  induction xs generalizing ys with
  | nil => cases ys <;> simp [comparePre, prePrecedes]
  | cons x xs ih =>
    cases ys with
    | nil => simp [comparePre, prePrecedes]
    | cons y ys =>
      simp only [comparePre, prePrecedes]
      rcases PRVersion.Compare_cases x y with ⟨hc, h1, h2⟩ | ⟨hc, h1, h2⟩ | ⟨hc, h1, h2⟩
      · simp [hc, h1]
      · simp [hc, h1, h2, ih]
      · simp [hc, h1, h2]

/-- The method `GT` is the reference precedence, read from right to left. -/
theorem Version.GT_eq_precedes (v o : Version) : v.GT o = o.precedes v := by
  unfold Version.GT Version.precedes Version.Compare
  rcases lt_trichotomy v.Major o.Major with h | h | h
  · have h1 : ¬ v.Major = o.Major := ne_of_lt h
    have h2 : ¬ o.Major < v.Major := lt_asymm h
    have h3 : ¬ o.Major = v.Major := fun e => h1 e.symm
    simp [h1, h2, h3, GT.gt]
  swap
  · have h1 : ¬ v.Major = o.Major := (ne_of_lt h).symm
    simp [h1, h, GT.gt]
  rcases lt_trichotomy v.Minor o.Minor with h' | h' | h'
  · have h1 : ¬ v.Minor = o.Minor := ne_of_lt h'
    have h2 : ¬ o.Minor < v.Minor := lt_asymm h'
    have h3 : ¬ o.Minor = v.Minor := fun e => h1 e.symm
    simp [h, h1, h2, h3, GT.gt]
  swap
  · have h1 : ¬ v.Minor = o.Minor := (ne_of_lt h').symm
    simp [h, h1, h', GT.gt]
  rcases lt_trichotomy v.Patch o.Patch with h'' | h'' | h''
  · have h1 : ¬ v.Patch = o.Patch := ne_of_lt h''
    have h2 : ¬ o.Patch < v.Patch := lt_asymm h''
    have h3 : ¬ o.Patch = v.Patch := fun e => h1 e.symm
    simp [h, h', h1, h2, h3, GT.gt]
  swap
  · have h1 : ¬ v.Patch = o.Patch := (ne_of_lt h'').symm
    simp [h, h', h1, h'', GT.gt]
  cases hv : v.Pre with
  | nil =>
    cases ho : o.Pre with
    | nil => simp [h, h', h'']
    | cons y ys => simp [h, h', h'']
  | cons x xs =>
    cases ho : o.Pre with
    | nil => simp [h, h', h'']
    | cons y ys =>
      have := comparePre_eq_one (x :: xs) (y :: ys)
      simp [h, h', h'', this]

end semver

namespace gostrings

theorem append_eq_empty (a b : String) : a ++ b = "" ↔ a = "" ∧ b = "" := by
  constructor
  · intro h
    have hd : (a ++ b).data = [] := by rw [h]
    rw [String.data_append, List.append_eq_nil] at hd
    exact ⟨String.ext hd.1, String.ext hd.2⟩
  · rintro ⟨rfl, rfl⟩
    rfl

theorem TrimPrefix_v (s : String) :
    TrimPrefix s "v" = minimumkubeletversion.removeLeadingV s := by
  unfold TrimPrefix minimumkubeletversion.removeLeadingV
  have hv : "v".data = ['v'] := rfl
  rw [hv]
  cases hs : s.data with
  | nil => simp [dropFront]
  | cons c cs =>
    by_cases hc : c = 'v'
    · subst hc
      simp [dropFront]
    · have hc2 : ¬ 'v' = c := fun e => hc e.symm
      simp only [dropFront, hc2, if_false]
      split
      · rename_i heq
        simp only [List.cons.injEq] at heq
        exact absurd heq.1 hc
      · rfl

theorem TrimPrefix_v_append (s : String) : TrimPrefix ("v" ++ s) "v" = s := by
  unfold TrimPrefix
  have hd : ("v" ++ s).data = 'v' :: s.data := by
    rw [String.data_append]
    rfl
  have hv : "v".data = ['v'] := rfl
  rw [hd, hv]
  simp [dropFront]

theorem TrimPrefix_v_bare (s : String) (h : HasPrefix s "v" = false) : TrimPrefix s "v" = s := by
  unfold TrimPrefix
  unfold HasPrefix at h
  cases hd : dropFront "v".data s.data with
  | none => rfl
  | some rest => simp [hd] at h

end gostrings

namespace minimumkubeletversion

/-- The boolean of `IsKubeletVersionTooOld`, in terms of the parsed version. -/
theorem IsKubeletVersionTooOld_fst (nd : corev1.Node) (minVersion : semver.Version) :
    (IsKubeletVersionTooOld nd minVersion).1
      = match semver.Parse (removeLeadingV nd.Status.NodeInfo.KubeletVersion) with
        | .error _ => false
        | .ok parsed => parsed.release.precedes minVersion := by
  unfold IsKubeletVersionTooOld
  rw [gostrings.TrimPrefix_v]
  cases hp : semver.Parse (removeLeadingV nd.Status.NodeInfo.KubeletVersion) with
  | error err => rfl
  | ok parsed =>
    have hgt := semver.Version.GT_eq_precedes minVersion parsed.release
    unfold semver.Version.release at hgt ⊢
    simp only
    by_cases h : minVersion.GT { parsed with Pre := [], Build := [] } = true
    · simp only [h, if_true]
      rw [← hgt, h]
    · simp only [h, if_false]
      rw [← hgt]
      simpa using h

/-- The reason of `IsKubeletVersionTooOld` is empty exactly when the version
parses and is not lower than the minimum. -/
theorem IsKubeletVersionTooOld_snd_eq_empty (nd : corev1.Node) (minVersion : semver.Version) :
    (IsKubeletVersionTooOld nd minVersion).2 = "" ↔
      ∃ parsed, semver.Parse (removeLeadingV nd.Status.NodeInfo.KubeletVersion) = .ok parsed
        ∧ parsed.release.precedes minVersion = false := by
  unfold IsKubeletVersionTooOld
  rw [gostrings.TrimPrefix_v]
  cases hp : semver.Parse (removeLeadingV nd.Status.NodeInfo.KubeletVersion) with
  | error err =>
    simp only [gostrings.append_eq_empty]
    constructor
    · rintro ⟨⟨⟨h, _⟩, _⟩, _⟩
      exact absurd h (by decide)
    · rintro ⟨_, h, _⟩
      cases h
  | ok parsed =>
    have hgt := semver.Version.GT_eq_precedes minVersion parsed.release
    unfold semver.Version.release at hgt ⊢
    simp only
    by_cases h : minVersion.GT { parsed with Pre := [], Build := [] } = true
    · simp only [h, if_true, gostrings.append_eq_empty]
      constructor
      · rintro ⟨⟨⟨⟨⟨h1, _⟩, _⟩, _⟩, _⟩, _⟩
        exact absurd h1 (by decide)
      · rintro ⟨p, hp2, hprec⟩
        cases hp2
        rw [← hgt, h] at hprec
        cases hprec
    · have hf : minVersion.GT { parsed with Pre := [], Build := [] } = false := by
        simpa using h
      rw [hf]
      simp only [Bool.false_eq_true, if_false, true_iff]
      refine ⟨parsed, rfl, ?_⟩
      rw [← hgt]
      exact hf

end minimumkubeletversion

/-- C7: the boolean of `IsKubeletVersionTooOld` is the release-only reference
comparison: true exactly when the reported version, with one leading `v`
removed, parses and the floor is strictly greater in precedence than its
release.  Hence a record that reports `v` followed by the version of this one
(which itself has no leading `v`) gets the same boolean, so does a record whose
parsed version differs from the one of this record only in pre-release and build
metadata, and the result is `(false, "")` exactly when the version parses and its
release is not lower than the floor. -/
theorem C7_release_only_comparison (nd : corev1.Node) (floor : semver.Version) :
    (minimumkubeletversion.IsKubeletVersionTooOld nd floor).1
        = minimumkubeletversion.releaseOnlyTooOld nd.Status.NodeInfo.KubeletVersion floor
      ∧ (∀ other : corev1.Node,
          other.Status.NodeInfo.KubeletVersion = "v" ++ nd.Status.NodeInfo.KubeletVersion →
          gostrings.HasPrefix nd.Status.NodeInfo.KubeletVersion "v" = false →
          (minimumkubeletversion.IsKubeletVersionTooOld other floor).1
            = (minimumkubeletversion.IsKubeletVersionTooOld nd floor).1)
      ∧ (∀ (other : corev1.Node) (v1 v2 : semver.Version),
          semver.Parse (minimumkubeletversion.removeLeadingV nd.Status.NodeInfo.KubeletVersion)
            = .ok v1 →
          semver.Parse (minimumkubeletversion.removeLeadingV other.Status.NodeInfo.KubeletVersion)
            = .ok v2 →
          v1.Major = v2.Major → v1.Minor = v2.Minor → v1.Patch = v2.Patch →
          (minimumkubeletversion.IsKubeletVersionTooOld other floor).1
            = (minimumkubeletversion.IsKubeletVersionTooOld nd floor).1)
      ∧ (minimumkubeletversion.IsKubeletVersionTooOld nd floor = (false, "") ↔
          ∃ v, semver.Parse (minimumkubeletversion.removeLeadingV nd.Status.NodeInfo.KubeletVersion)
                = .ok v
            ∧ v.release.precedes floor = false) := by
  refine ⟨?_, ?_, ?_, ?_⟩
  · rw [minimumkubeletversion.IsKubeletVersionTooOld_fst]
    rfl
  · intro other hother hbare
    rw [minimumkubeletversion.IsKubeletVersionTooOld_fst,
      minimumkubeletversion.IsKubeletVersionTooOld_fst, hother,
      ← gostrings.TrimPrefix_v, ← gostrings.TrimPrefix_v, gostrings.TrimPrefix_v_append,
      gostrings.TrimPrefix_v_bare _ hbare]
  · intro other v1 v2 h1 h2 hmaj hmin hpat
    rw [minimumkubeletversion.IsKubeletVersionTooOld_fst,
      minimumkubeletversion.IsKubeletVersionTooOld_fst, h1, h2]
    have hrel : v2.release = v1.release := by
      unfold semver.Version.release
      rw [hmaj, hmin, hpat]
    simp only [hrel]
  · have hsnd := minimumkubeletversion.IsKubeletVersionTooOld_snd_eq_empty nd floor
    have hfst := minimumkubeletversion.IsKubeletVersionTooOld_fst nd floor
    constructor
    · intro h
      exact hsnd.mp (by rw [h])
    · intro h
      have h2 := hsnd.mpr h
      obtain ⟨v, hv, hprec⟩ := h
      rw [hv] at hfst
      simp only [hprec] at hfst
      exact Prod.ext hfst h2

/-- Witness of C7: under the floor 1.18.0 the records reporting `1.17.0`,
`v1.17.0` and `1.17.0-rc.1+b5` are all too old, and the record reporting
`1.18.0-rc.1` gets `(false, "")`. -/
theorem C7_release_only_comparison_witness :
    (minimumkubeletversion.IsKubeletVersionTooOld (examples.agent "a" "1.17.0")
        examples.v1_18_0).1 = true
      ∧ (minimumkubeletversion.IsKubeletVersionTooOld (examples.agent "b" "v1.17.0")
          examples.v1_18_0).1
        = (minimumkubeletversion.IsKubeletVersionTooOld (examples.agent "a" "1.17.0")
          examples.v1_18_0).1
      ∧ (minimumkubeletversion.IsKubeletVersionTooOld (examples.agent "c" "1.17.0-rc.1+b5")
          examples.v1_18_0).1
        = (minimumkubeletversion.IsKubeletVersionTooOld (examples.agent "a" "1.17.0")
          examples.v1_18_0).1
      ∧ minimumkubeletversion.IsKubeletVersionTooOld (examples.agent "d" "1.18.0-rc.1")
          examples.v1_18_0 = (false, "") :=
  ⟨by decide,
   (C7_release_only_comparison (examples.agent "a" "1.17.0") examples.v1_18_0).2.1
     (examples.agent "b" "v1.17.0") rfl (by decide),
   (C7_release_only_comparison (examples.agent "a" "1.17.0") examples.v1_18_0).2.2.1
     (examples.agent "c" "1.17.0-rc.1+b5")
     { Major := 1, Minor := 17, Patch := 0, Pre := [], Build := [] }
     { Major := 1, Minor := 17, Patch := 0,
       Pre := [{ VersionStr := "rc", VersionNum := 0, IsNum := false },
               { VersionStr := "", VersionNum := 1, IsNum := true }],
       Build := ["b5"] }
     (by decide) (by decide) rfl rfl rfl,
   (C7_release_only_comparison (examples.agent "d" "1.18.0-rc.1") examples.v1_18_0).2.2.2.mpr
     ⟨{ Major := 1, Minor := 18, Patch := 0,
        Pre := [{ VersionStr := "rc", VersionNum := 0, IsNum := false },
                { VersionStr := "", VersionNum := 1, IsNum := true }],
        Build := [] }, by decide, by decide⟩⟩

/-! ## The config validator -/

namespace node

theorem agentFails_iff (nd : corev1.Node) (version : semver.Version) :
    agentFails nd version ↔ (minimumkubeletversion.IsKubeletVersionTooOld nd version).2 ≠ "" := by
  have hsnd := minimumkubeletversion.IsKubeletVersionTooOld_snd_eq_empty nd version
  have hfst := minimumkubeletversion.IsKubeletVersionTooOld_fst nd version
  unfold agentFails
  rw [Ne, hsnd]
  cases hp : semver.Parse
      (minimumkubeletversion.removeLeadingV nd.Status.NodeInfo.KubeletVersion) with
  | error err =>
    constructor
    · rintro _ ⟨_, h, _⟩
      cases h
    · intro _
      exact Or.inr ⟨err, rfl⟩
  | ok parsed =>
    rw [hp] at hfst
    simp only at hfst
    constructor
    · rintro (h | ⟨_, h⟩) ⟨p, hp2, hprec⟩
      · cases hp2
        rw [hfst, hprec] at h
        cases h
      · cases h
    · intro h
      left
      rw [hfst]
      by_contra hne
      exact h ⟨parsed, rfl, by simpa using hne⟩

/-- The loop over the listed nodes stops at the first agent that fails. -/
theorem minimumKubeletVersionLoop_spec (fieldPath : String) (obj : configv1.Node)
    (version : semver.Version) (nodes : List corev1.Node) :
    (minimumKubeletVersionLoop fieldPath obj version nodes = none
        ∧ ∀ n ∈ nodes, ¬ agentFails n version)
      ∨ ∃ before n after, nodes = before ++ n :: after
          ∧ (∀ k ∈ before, ¬ agentFails k version) ∧ agentFails n version
          ∧ minimumKubeletVersionLoop fieldPath obj version nodes
              = some (field.Invalid fieldPath obj.Spec.MinimumKubeletVersion
                  (minimumkubeletversion.IsKubeletVersionTooOld n version).2) := by
  induction nodes with
  | nil =>
    left
    exact ⟨rfl, by simp⟩
  | cons x rest ih =>
    by_cases hx : (minimumkubeletversion.IsKubeletVersionTooOld x version).2 = ""
    · have hpass : ¬ agentFails x version := fun hf => (agentFails_iff x version).mp hf hx
      have hstep : minimumKubeletVersionLoop fieldPath obj version (x :: rest)
          = minimumKubeletVersionLoop fieldPath obj version rest := by
        simp [minimumKubeletVersionLoop, hx]
      rcases ih with ⟨hnone, hall⟩ | ⟨before, n, after, hsplit, hbefore, hn, hres⟩
      · left
        refine ⟨by rw [hstep, hnone], ?_⟩
        intro k hk
        rcases List.mem_cons.mp hk with rfl | hk
        · exact hpass
        · exact hall k hk
      · right
        refine ⟨x :: before, n, after, by rw [hsplit]; rfl, ?_, hn, by rw [hstep, hres]⟩
        intro k hk
        rcases List.mem_cons.mp hk with rfl | hk
        · exact hpass
        · exact hbefore k hk
    · right
      refine ⟨[], x, rest, rfl, by simp, (agentFails_iff x version).mpr hx, ?_⟩
      simp [minimumKubeletVersionLoop, hx]

end node

/-- C3, counterexample: under the threshold 1.18.0 a single listed agent that
reports no version yet (the empty string) is not too old, and
`validateMinimumKubeletVersion` still returns an error. -/
theorem C3_counterexample :
    semver.Parse "1.18.0" = .ok examples.v1_18_0
      ∧ (minimumkubeletversion.IsKubeletVersionTooOld (examples.agent "node-1" "")
          examples.v1_18_0).1 = false
      ∧ node.validateMinimumKubeletVersion (.ok [examples.agent "node-1" ""])
          (examples.config "" "1.18.0")
        = some (field.Invalid "spec.minimumKubeletVersion" "1.18.0"
            "failed to parse node version : Version string empty") := by
  decide

/-- C3, amended: for a config object whose minimum is non-empty and parses, and
a listed sequence of agents, `validateMinimumKubeletVersion` returns an error
exactly when some listed agent is too old or reports a version that does not
parse; the error is Invalid on `spec.minimumKubeletVersion`, with the minimum as
bad value and the message of the first such agent in list order; when no agent
is such, as in the empty list, the result is success. -/
theorem C3_validate_minimum_first_failing (obj : configv1.Node) (version : semver.Version)
    (nodes : List corev1.Node) (hset : obj.Spec.MinimumKubeletVersion ≠ "")
    (hparse : semver.Parse obj.Spec.MinimumKubeletVersion = .ok version) :
    (node.validateMinimumKubeletVersion (.ok nodes) obj = none
        ∧ ∀ n ∈ nodes, ¬ node.agentFails n version)
      ∨ ∃ before n after, nodes = before ++ n :: after
          ∧ (∀ k ∈ before, ¬ node.agentFails k version) ∧ node.agentFails n version
          ∧ node.validateMinimumKubeletVersion (.ok nodes) obj
              = some { Typ := field.ErrorType.ErrorTypeInvalid,
                       Field := "spec.minimumKubeletVersion",
                       BadValue := obj.Spec.MinimumKubeletVersion,
                       Detail := (minimumkubeletversion.IsKubeletVersionTooOld n version).2 } := by
  have hval : node.validateMinimumKubeletVersion (.ok nodes) obj
      = node.minimumKubeletVersionLoop "spec.minimumKubeletVersion" obj version nodes := by
    unfold node.validateMinimumKubeletVersion
    simp only [hset, if_false, hparse]
    rfl
  rw [hval]
  exact node.minimumKubeletVersionLoop_spec "spec.minimumKubeletVersion" obj version nodes

/-- Witness of C3: under the threshold 1.18.0, of the agents reporting 1.18.0,
v1.17.3 and 1.16.0 the second is the first that fails and the error carries its
message; and the empty list is accepted. -/
theorem C3_validate_minimum_first_failing_witness :
    node.validateMinimumKubeletVersion
        (.ok [examples.agent "a" "1.18.0", examples.agent "b" "v1.17.3",
              examples.agent "c" "1.16.0"])
        (examples.config "" "1.18.0")
      = some (field.Invalid "spec.minimumKubeletVersion" "1.18.0"
          "kubelet version of node b is 1.17.3, which is lower than minimumKubeletVersion of 1.18.0")
    ∧ ((node.validateMinimumKubeletVersion (.ok []) (examples.config "" "1.18.0") = none
        ∧ ∀ n ∈ ([] : List corev1.Node), ¬ node.agentFails n examples.v1_18_0)
      ∨ ∃ before n after, ([] : List corev1.Node) = before ++ n :: after
          ∧ (∀ k ∈ before, ¬ node.agentFails k examples.v1_18_0)
          ∧ node.agentFails n examples.v1_18_0
          ∧ node.validateMinimumKubeletVersion (.ok []) (examples.config "" "1.18.0")
              = some { Typ := field.ErrorType.ErrorTypeInvalid,
                       Field := "spec.minimumKubeletVersion",
                       BadValue := (examples.config "" "1.18.0").Spec.MinimumKubeletVersion,
                       Detail := (minimumkubeletversion.IsKubeletVersionTooOld n
                         examples.v1_18_0).2 }) :=
  ⟨by decide,
   C3_validate_minimum_first_failing (examples.config "" "1.18.0") examples.v1_18_0 []
     (by decide) (by decide)⟩

/-- C4: `validateConfigNodeForExtremeLatencyProfile` rejects the update from the
old to the new worker latency profile exactly when the pair is (unset, Low),
(Low, unset), (Default, Low) or (Low, Default); every other pair is accepted, so
any pair with Medium on a side and any pair of equal profiles.  A rejection is
an Invalid error on `spec.workerLatencyProfile` whose message ends with the name
of the Medium profile. -/
theorem C4_latency_profile_transitions (obj oldObj : configv1.Node) :
    ((node.forbiddenTransition oldObj.Spec.WorkerLatencyProfile obj.Spec.WorkerLatencyProfile
        ∧ ∃ e, node.validateConfigNodeForExtremeLatencyProfile obj oldObj = some e
            ∧ e.Typ = field.ErrorType.ErrorTypeInvalid
            ∧ e.Field = "spec.workerLatencyProfile"
            ∧ e.BadValue = obj.Spec.WorkerLatencyProfile
            ∧ ∃ before, e.Detail = before ++ "\"MediumUpdateAverageReaction\"")
      ∨ (¬ node.forbiddenTransition oldObj.Spec.WorkerLatencyProfile
            obj.Spec.WorkerLatencyProfile
        ∧ node.validateConfigNodeForExtremeLatencyProfile obj oldObj = none))
    ∧ (oldObj.Spec.WorkerLatencyProfile = configv1.MediumUpdateAverageReaction
        ∨ obj.Spec.WorkerLatencyProfile = configv1.MediumUpdateAverageReaction
        ∨ oldObj.Spec.WorkerLatencyProfile = obj.Spec.WorkerLatencyProfile →
      node.validateConfigNodeForExtremeLatencyProfile obj oldObj = none) := by
  have hmain :
      (node.forbiddenTransition oldObj.Spec.WorkerLatencyProfile obj.Spec.WorkerLatencyProfile
        ∧ ∃ e, node.validateConfigNodeForExtremeLatencyProfile obj oldObj = some e
            ∧ e.Typ = field.ErrorType.ErrorTypeInvalid
            ∧ e.Field = "spec.workerLatencyProfile"
            ∧ e.BadValue = obj.Spec.WorkerLatencyProfile
            ∧ ∃ before, e.Detail = before ++ "\"MediumUpdateAverageReaction\"")
      ∨ (¬ node.forbiddenTransition oldObj.Spec.WorkerLatencyProfile
            obj.Spec.WorkerLatencyProfile
        ∧ node.validateConfigNodeForExtremeLatencyProfile obj oldObj = none) := by
    have hq : gostrings.Quote configv1.MediumUpdateAverageReaction
        = "\"MediumUpdateAverageReaction\"" := by decide
    by_cases hf : node.forbiddenTransition oldObj.Spec.WorkerLatencyProfile
        obj.Spec.WorkerLatencyProfile
    · left
      refine ⟨hf, ?_⟩
      unfold node.validateConfigNodeForExtremeLatencyProfile node.rejectionScenarios
      unfold node.forbiddenTransition at hf
      rw [← hq]
      rcases hf with ⟨h1, h2⟩ | ⟨h1, h2⟩ | ⟨h1, h2⟩ | ⟨h1, h2⟩ <;>
        simp [node.latencyProfileLoop, h1, h2, field.Invalid, field.NewPath,
          configv1.LowUpdateSlowReaction, configv1.DefaultUpdateDefaultReaction] <;>
        exact ⟨_, rfl⟩
    · right
      refine ⟨hf, ?_⟩
      unfold node.forbiddenTransition at hf
      simp only [not_or] at hf
      obtain ⟨h1, h2, h3, h4⟩ := hf
      unfold node.validateConfigNodeForExtremeLatencyProfile node.rejectionScenarios
      simp only [node.latencyProfileLoop, h1, h2, h3, h4, if_false]
  refine ⟨hmain, ?_⟩
  intro h
  rcases hmain with ⟨hf, _⟩ | ⟨_, hnone⟩
  · exfalso
    unfold node.forbiddenTransition at hf
    rcases h with h | h | h
    · rw [h] at hf
      revert hf
      simp [configv1.MediumUpdateAverageReaction, configv1.LowUpdateSlowReaction,
        configv1.DefaultUpdateDefaultReaction]
    · rw [h] at hf
      revert hf
      simp [configv1.MediumUpdateAverageReaction, configv1.LowUpdateSlowReaction,
        configv1.DefaultUpdateDefaultReaction]
    · rw [h] at hf
      rcases hf with ⟨a, b⟩ | ⟨a, b⟩ | ⟨a, b⟩ | ⟨a, b⟩ <;>
        exact absurd (a.symm.trans b) (by decide)
  · exact hnone

/-- Witness of C4: the update unset to Low is rejected, the updates unset to
Medium and Medium to Low are accepted. -/
theorem C4_latency_profile_transitions_witness :
    (node.validateConfigNodeForExtremeLatencyProfile
        (examples.config configv1.LowUpdateSlowReaction "") (examples.config "" "")).isSome = true
      ∧ node.validateConfigNodeForExtremeLatencyProfile
          (examples.config configv1.MediumUpdateAverageReaction "") (examples.config "" "") = none
      ∧ node.validateConfigNodeForExtremeLatencyProfile
          (examples.config configv1.LowUpdateSlowReaction "")
          (examples.config configv1.MediumUpdateAverageReaction "") = none :=
  ⟨by decide,
   (C4_latency_profile_transitions (examples.config configv1.MediumUpdateAverageReaction "")
     (examples.config "" "")).2 (Or.inr (Or.inl rfl)),
   (C4_latency_profile_transitions (examples.config configv1.LowUpdateSlowReaction "")
     (examples.config configv1.MediumUpdateAverageReaction "")).2 (Or.inl rfl)⟩

/-! ## The node admission plugin -/

namespace nodeversion

/-- For a node that acts on its own node object, `Admit` is the check of the
object on create and on update, and nothing else. -/
theorem Admit_own (p : Plugin) (a : Attributes) (nodeName : String)
    (hid : p.nodeIdentifier a.UserInfo = (nodeName, true)) (hname : nodeName ≠ "")
    (hres : a.Resource.GroupResource = nodeResource) (hown : a.Name = nodeName) :
    p.Admit a =
      if a.Operation = Operation.Create ∨ a.Operation = Operation.Update then p.checkObject a
      else none := by
  have hlen : ¬ nodeName.length = 0 := fun h => hname ((gostrings.length_eq_zero _).mp h)
  unfold Plugin.Admit
  simp only [hid, Bool.not_true, Bool.false_eq_true, if_false, hlen, hres, if_true]
  unfold Plugin.admitNode
  simp only [hown, ne_eq, not_true_eq_false, if_false]
  cases hop : a.Operation <;> simp
  cases p.checkObject a <;> rfl

theorem checkObject_eq_none (p : Plugin) (a : Attributes) :
    p.checkObject a = none ↔
      ∃ nd v, a.Object = Object.Node nd
        ∧ utilversion.ParseSemantic nd.Status.NodeInfo.KubeletVersion = .ok v
        ∧ v.AtLeast p.minKubeletVersion = true := by
  unfold Plugin.checkObject
  cases hobj : a.Object with
  | Nil => simp
  | Other t => simp
  | Node nd =>
    unfold Plugin.validateVersion
    cases hp : utilversion.ParseSemantic nd.Status.NodeInfo.KubeletVersion with
    | error err => simp [hp]
    | ok v =>
      by_cases hat : v.AtLeast p.minKubeletVersion = true
      · simp [hp, hat]
      · simp [hp, hat]

end nodeversion

/-- C5: for a request on the nodes resource by an agent whose resolved name is
non-empty and equals the target name: on create and on update `Admit` allows the
request exactly when the object is a node whose reported kubelet version parses
as a semantic version and is at least the static minimum; on delete it allows
the request whatever the object. -/
theorem C5_admit_own_node (p : nodeversion.Plugin) (a : nodeversion.Attributes)
    (nodeName : String) (hid : p.nodeIdentifier a.UserInfo = (nodeName, true))
    (hname : nodeName ≠ "") (hres : a.Resource.GroupResource = nodeversion.nodeResource)
    (hown : a.Name = nodeName) :
    ((a.Operation = nodeversion.Operation.Create ∨ a.Operation = nodeversion.Operation.Update) →
        (p.Admit a = none ↔
          ∃ nd v, a.Object = nodeversion.Object.Node nd
            ∧ utilversion.ParseSemantic nd.Status.NodeInfo.KubeletVersion = .ok v
            ∧ v.AtLeast p.minKubeletVersion = true))
      ∧ (a.Operation = nodeversion.Operation.Delete → p.Admit a = none) := by
  rw [nodeversion.Admit_own p a nodeName hid hname hres hown]
  constructor
  · intro hop
    simp only [hop, if_true]
    exact nodeversion.checkObject_eq_none p a
  · intro hop
    simp [hop]

/-- Witness of C5: the plugin is constructed with the minimum "1.18.0"; the
create of node `a` by `a` is allowed with the version 1.18.0 and denied with
1.17.9, and the delete of `a` by `a` is allowed with 1.17.9. -/
theorem C5_admit_own_node_witness :
    (nodeversion.NewPlugin (fun _ => ("a", true))
        (some (.ok { NodeVersionPolicy := { MinimumKubeletVersion := "1.18.0" } }))).map
        (fun p => p.minKubeletVersion) = .ok examples.static1_18_0
      ∧ (examples.pluginFor "a" examples.static1_18_0).Admit
          (examples.admitRequest "a" nodeversion.Operation.Create "a"
            (nodeversion.Object.Node (examples.agent "a" "1.18.0"))) = none
      ∧ (examples.pluginFor "a" examples.static1_18_0).Admit
          (examples.admitRequest "a" nodeversion.Operation.Create "a"
            (nodeversion.Object.Node (examples.agent "a" "1.17.9")))
          = some { internalError :=
              "registered kubelet version 1.17.9 lower than configured minimum 1.18.0" }
      ∧ (examples.pluginFor "a" examples.static1_18_0).Admit
          (examples.admitRequest "a" nodeversion.Operation.Delete "a"
            (nodeversion.Object.Node (examples.agent "a" "1.17.9"))) = none :=
  ⟨by decide,
   ((C5_admit_own_node (examples.pluginFor "a" examples.static1_18_0)
      (examples.admitRequest "a" nodeversion.Operation.Create "a"
        (nodeversion.Object.Node (examples.agent "a" "1.18.0")))
      "a" rfl (by decide) rfl rfl).1 (Or.inl rfl)).mpr
     ⟨examples.agent "a" "1.18.0", examples.static1_18_0, rfl, by decide, by decide⟩,
   by decide,
   (C5_admit_own_node (examples.pluginFor "a" examples.static1_18_0)
      (examples.admitRequest "a" nodeversion.Operation.Delete "a"
        (nodeversion.Object.Node (examples.agent "a" "1.17.9")))
      "a" rfl (by decide) rfl rfl).2 rfl⟩

/-- C6: for a request on the nodes resource by an agent whose resolved name is
non-empty and differs from the target name, `Admit` denies the request, whatever
the operation and the object. -/
theorem C6_admit_other_node (p : nodeversion.Plugin) (a : nodeversion.Attributes)
    (nodeName : String) (hid : p.nodeIdentifier a.UserInfo = (nodeName, true))
    (hname : nodeName ≠ "") (hres : a.Resource.GroupResource = nodeversion.nodeResource)
    (hother : a.Name ≠ nodeName) :
    p.Admit a = some { internalError := "node " ++ gostrings.Quote nodeName
      ++ " is not allowed to modify node " ++ gostrings.Quote a.Name } := by
  have hlen : ¬ nodeName.length = 0 := fun h => hname ((gostrings.length_eq_zero _).mp h)
  unfold nodeversion.Plugin.Admit
  simp only [hid, Bool.not_true, Bool.false_eq_true, if_false, hlen, hres, if_true]
  unfold nodeversion.Plugin.admitNode
  simp [hother, nodeversion.NewForbidden]

/-- Witness of C6: the update of node `a` by the node `b` is denied, with a
version at the minimum as with one below it, and so is the delete. -/
theorem C6_admit_other_node_witness :
    (examples.pluginFor "b" examples.static1_18_0).Admit
        (examples.admitRequest "b" nodeversion.Operation.Update "a"
          (nodeversion.Object.Node (examples.agent "a" "1.18.0")))
        = some { internalError := "node \"b\" is not allowed to modify node \"a\"" }
      ∧ ((examples.pluginFor "b" examples.static1_18_0).Admit
          (examples.admitRequest "b" nodeversion.Operation.Update "a"
            (nodeversion.Object.Node (examples.agent "a" "1.17.9")))).isSome = true
      ∧ ((examples.pluginFor "b" examples.static1_18_0).Admit
          (examples.admitRequest "b" nodeversion.Operation.Delete "a"
            nodeversion.Object.Nil)).isSome = true :=
  ⟨C6_admit_other_node (examples.pluginFor "b" examples.static1_18_0)
      (examples.admitRequest "b" nodeversion.Operation.Update "a"
        (nodeversion.Object.Node (examples.agent "a" "1.18.0")))
      "b" rfl (by decide) rfl (by decide),
   by decide, by decide⟩

/-! ## The two comparison modes on a pre-release of the floor's release -/

namespace utilversion

theorem ParseSemantic_semver (str : String) (v : Version) (h : ParseSemantic str = .ok v) :
    v.semver = true := by
  unfold ParseSemantic parse at h
  cases hm : versionMatch str.data with
  | none => simp [hm] at h
  | some ne =>
    obtain ⟨numbers, extra⟩ := ne
    simp only [hm] at h
    split at h
    · cases h
    · cases hc : parseComponents str true 0
          ((gostrings.splitOn '.' numbers).map String.mk) with
      | error e => simp [hc] at h
      | ok comps =>
        simp only [hc] at h
        split at h
        · cases he : extraMatch extra with
          | none => simp [he] at h
          | some pb =>
            obtain ⟨pre, build⟩ := pb
            simp only [he] at h
            cases hk : checkPreRelease str ((gostrings.splitOn '.' pre).map String.mk) with
            | error e => simp [hk] at h
            | ok u =>
              simp only [hk] at h
              cases h
              rfl
        · cases h
          rfl

theorem compareComponents_self (c : List Nat) : compareComponents c c = 0 := by
  induction c with
  | nil => rfl
  | cons x xs ih => simp [compareComponents, ih]

/-- Exact precedence: with equal numeric components, a version with a
pre-release is not at least a version without one. -/
theorem AtLeast_prerelease_of_release (v min : Version) (hv : v.semver = true)
    (hmin : min.semver = true) (hcomp : v.components = min.components)
    (hpre : v.preRelease ≠ "") (hminpre : min.preRelease = "") :
    v.AtLeast min = false := by
  unfold Version.AtLeast Version.compareInternal
  rw [hcomp, compareComponents_self]
  simp [hv, hmin, hpre, hminpre]

end utilversion

/-- C8, counterexample: the candidate 1.18.0-rc.1 has the major, minor and patch
of the floor and carries a pre-release tag, and the exact comparison reports it
as at least the floor when the floor is 1.18.0-rc.1 or 1.18.0-alpha.1: the node
admission plugin accepts it. -/
theorem C8_counterexample :
    utilversion.ParseSemantic "1.18.0-rc.1" = .ok examples.static1_18_0_rc1
      ∧ examples.static1_18_0_rc1.AtLeast examples.static1_18_0_rc1 = true
      ∧ (examples.pluginFor "a" examples.static1_18_0_rc1).validateVersion
          (examples.agent "a" "1.18.0-rc.1") = none
      ∧ utilversion.ParseSemantic "1.18.0-alpha.1"
          = .ok { components := [1, 18, 0], semver := true, preRelease := "alpha.1",
                  buildMetadata := "" }
      ∧ (examples.pluginFor "a"
            { components := [1, 18, 0], semver := true, preRelease := "alpha.1",
              buildMetadata := "" }).validateVersion
          (examples.agent "a" "1.18.0-rc.1") = none := by
  decide

/-- C8, amended: for a candidate and a floor with equal major, minor and patch,
where the candidate carries a pre-release tag and the floor carries none, the
exact comparison of the node admission plugin reports the candidate as not at
least the floor (`validateVersion` returns an error), while the release-only
comparison `IsKubeletVersionTooOld` reports it as not too old, with an empty
reason; the latter holds whatever the pre-release of the floor is. -/
theorem C8_modes_on_prerelease (p : nodeversion.Plugin) (floorStr : String) (nd : corev1.Node)
    (cand : utilversion.Version) (floor parsed : semver.Version)
    (hfloor : utilversion.ParseSemantic floorStr = .ok p.minKubeletVersion)
    (hcand : utilversion.ParseSemantic nd.Status.NodeInfo.KubeletVersion = .ok cand)
    (hrel : cand.components = p.minKubeletVersion.components)
    (hpre : cand.preRelease ≠ "") (hfloorpre : p.minKubeletVersion.preRelease = "")
    (hparsed : semver.Parse (gostrings.TrimPrefix nd.Status.NodeInfo.KubeletVersion "v")
      = .ok parsed)
    (hmajor : parsed.Major = floor.Major) (hminor : parsed.Minor = floor.Minor)
    (hpatch : parsed.Patch = floor.Patch) :
    cand.AtLeast p.minKubeletVersion = false
      ∧ (p.validateVersion nd).isSome = true
      ∧ minimumkubeletversion.IsKubeletVersionTooOld nd floor = (false, "") := by
  have hat : cand.AtLeast p.minKubeletVersion = false :=
    utilversion.AtLeast_prerelease_of_release cand p.minKubeletVersion
      (utilversion.ParseSemantic_semver _ _ hcand) (utilversion.ParseSemantic_semver _ _ hfloor)
      hrel hpre hfloorpre
  refine ⟨hat, ?_, ?_⟩
  · unfold nodeversion.Plugin.validateVersion
    simp [hcand, hat]
  · unfold minimumkubeletversion.IsKubeletVersionTooOld
    rw [hparsed]
    have hgt : floor.GT { parsed with Pre := [], Build := [] } = false := by
      rw [semver.Version.GT_eq_precedes]
      unfold semver.Version.precedes
      simp [hmajor, hminor, hpatch]
    simp [hgt]

/-- Witness of C8: the candidate 1.18.0-rc.1 against the floor 1.18.0 is refused
by the exact comparison and is not too old for the release-only one. -/
theorem C8_modes_on_prerelease_witness :
    examples.static1_18_0_rc1.AtLeast examples.static1_18_0 = false
      ∧ ((examples.pluginFor "a" examples.static1_18_0).validateVersion
          (examples.agent "a" "1.18.0-rc.1")).isSome = true
      ∧ minimumkubeletversion.IsKubeletVersionTooOld (examples.agent "a" "1.18.0-rc.1")
          examples.v1_18_0 = (false, "") :=
  C8_modes_on_prerelease (examples.pluginFor "a" examples.static1_18_0) "1.18.0"
    (examples.agent "a" "1.18.0-rc.1") examples.static1_18_0_rc1 examples.v1_18_0
    { Major := 1, Minor := 18, Patch := 0,
      Pre := [{ VersionStr := "rc", VersionNum := 0, IsNum := false },
              { VersionStr := "", VersionNum := 1, IsNum := true }],
      Build := [] }
    (by decide) (by decide) rfl (by decide) rfl (by decide) rfl rfl rfl


/-! ## The authorizer: subject access reviews and the reasons it gives -/

namespace gostrings

theorem Mentions_mid (a part b : String) : Mentions (a ++ part ++ b) part :=
  ⟨a, b, rfl⟩

theorem Mentions_append_right (s part c : String) (h : Mentions s part) :
    Mentions (s ++ c) part := by
  obtain ⟨a, b, rfl⟩ := h
  exact ⟨a, b ++ c, by simp [String.append_assoc]⟩

theorem Mentions_end (a part : String) : Mentions (a ++ part) part :=
  ⟨a, "", by simp⟩

theorem dropFront_append (part rest : List Char) : dropFront part (part ++ rest) = some rest := by
  induction part with
  | nil => rfl
  | cons c cs ih => simp [dropFront, ih]

theorem containsChars_of_dropFront (part l : List Char) (h : (dropFront part l).isSome = true) :
    containsChars part l = true := by
  cases l with
  | nil => simpa [containsChars] using h
  | cons c cs => simp [containsChars, h]

theorem containsChars_append (before part rest : List Char) :
    containsChars part (before ++ part ++ rest) = true := by
  induction before with
  | nil =>
    apply containsChars_of_dropFront
    simp [dropFront_append]
  | cons b bs ih =>
    have hcons : b :: bs ++ part ++ rest = b :: (bs ++ part ++ rest) := by simp
    rw [hcons, containsChars, ih]
    simp

/-- A string that has `part` between a text before and a text after contains it
for `strings.Contains`. -/
theorem Contains_of_Mentions (s part : String) (h : Mentions s part) :
    Contains s part = true := by
  obtain ⟨before, rest, rfl⟩ := h
  unfold Contains
  rw [String.data_append, String.data_append]
  exact containsChars_append before.data part.data rest.data

end gostrings

namespace minimumkubeletversion

/-- When the version of the record parses, `IsKubeletVersionTooOld` compares the
minimum with its release and, when too old, writes the reason from the name of
the record, the release and the minimum. -/
theorem IsKubeletVersionTooOld_ok (nd : corev1.Node) (minVersion parsed : semver.Version)
    (hp : semver.Parse (gostrings.TrimPrefix nd.Status.NodeInfo.KubeletVersion "v") = .ok parsed) :
    IsKubeletVersionTooOld nd minVersion =
      if minVersion.GT parsed.release = true then
        (true, "kubelet version of node " ++ nd.ObjectMeta.Name ++ " is "
          ++ parsed.release.String ++ ", which is lower than minimumKubeletVersion of "
          ++ minVersion.String)
      else (false, "") := by
  unfold IsKubeletVersionTooOld semver.Version.release
  rw [hp]

/-- When the version of the record does not parse, `IsKubeletVersionTooOld` is
false and its reason quotes the version as reported and the parse error. -/
theorem IsKubeletVersionTooOld_error (nd : corev1.Node) (minVersion : semver.Version)
    (err : String)
    (hp : semver.Parse (gostrings.TrimPrefix nd.Status.NodeInfo.KubeletVersion "v")
      = .error err) :
    IsKubeletVersionTooOld nd minVersion =
      (false, "failed to parse node version " ++ nd.Status.NodeInfo.KubeletVersion ++ ": "
        ++ err) := by
  unfold IsKubeletVersionTooOld
  rw [hp]

/-- The comparison of versions, once the cache has returned the record. -/
theorem authorizeByVersion_ok (m : minimumKubeletVersionAuth) (minVersion : semver.Version)
    (attrs : Attributes) (nodeName : String) (nd : corev1.Node)
    (hget : m.nodeInformer nodeName = .ok nd) :
    authorizeByVersion m minVersion attrs nodeName =
      ⟨if (IsKubeletVersionTooOld nd minVersion).1 = true then Decision.DecisionDeny
        else Decision.DecisionNoOpinion,
       (IsKubeletVersionTooOld nd minVersion).2, none,
       [Call.NodeIdentity attrs.User, Call.ListerGet nodeName]⟩ := by
  unfold authorizeByVersion
  rw [hget]
  rcases hold : IsKubeletVersionTooOld nd minVersion with ⟨tooOld, errStr⟩
  cases tooOld <;> simp [hold]

end minimumkubeletversion

/-- C11, at the failing input: node-7 reports 1.17.0 under the minimum 1.18.0
and creates a subject access review in the API group `authorization.k8s.io`;
`Authorize` looks the node up and returns Deny.  The same request in the core
API group, the only one the code matches, yields no-opinion. -/
theorem C11_sar_authorization_group_denied :
    minimumkubeletversion.Authorize (examples.authFor "node-7" "1.17.0")
        (some examples.v1_18_0) (examples.sarRequest "node-7" "authorization.k8s.io")
      = { Decision := minimumkubeletversion.Decision.DecisionDeny,
          Reason := "kubelet version of node node-7 is 1.17.0, which is lower than minimumKubeletVersion of 1.18.0",
          Err := none,
          Calls := [minimumkubeletversion.Call.NodeIdentity (examples.kubeletUser "node-7"),
                    minimumkubeletversion.Call.ListerGet "node-7"] }
    ∧ minimumkubeletversion.Authorize (examples.authFor "node-7" "1.17.0")
        (some examples.v1_18_0) (examples.sarRequest "node-7" "")
      = { Decision := minimumkubeletversion.Decision.DecisionNoOpinion,
          Reason := "", Err := none,
          Calls := [minimumkubeletversion.Call.NodeIdentity (examples.kubeletUser "node-7")] } := by
  decide

/-- C12, counterexample: node-7 reports `v1.17.0-rc.1+abc` under the minimum
1.18.0 and lists nodes; `Authorize` returns Deny and the reason gives the
version as 1.17.0: it contains neither the version as reported nor that version
without its leading `v` or without its build metadata. -/
theorem C12_counterexample :
    minimumkubeletversion.Authorize (examples.authFor "node-7" "v1.17.0-rc.1+abc")
        (some examples.v1_18_0) (examples.nodeRequest "node-7" "list" "")
      = { Decision := minimumkubeletversion.Decision.DecisionDeny,
          Reason := "kubelet version of node node-7 is 1.17.0, which is lower than minimumKubeletVersion of 1.18.0",
          Err := none,
          Calls := [minimumkubeletversion.Call.NodeIdentity (examples.kubeletUser "node-7"),
                    minimumkubeletversion.Call.ListerGet "node-7"] }
    ∧ ¬ gostrings.Mentions
        (minimumkubeletversion.Authorize (examples.authFor "node-7" "v1.17.0-rc.1+abc")
          (some examples.v1_18_0) (examples.nodeRequest "node-7" "list" "")).Reason
        "v1.17.0-rc.1+abc"
    ∧ ¬ gostrings.Mentions
        (minimumkubeletversion.Authorize (examples.authFor "node-7" "v1.17.0-rc.1+abc")
          (some examples.v1_18_0) (examples.nodeRequest "node-7" "list" "")).Reason
        "1.17.0-rc.1+abc"
    ∧ ¬ gostrings.Mentions
        (minimumkubeletversion.Authorize (examples.authFor "node-7" "v1.17.0-rc.1+abc")
          (some examples.v1_18_0) (examples.nodeRequest "node-7" "list" "")).Reason
        "1.17.0-rc.1" := by
  refine ⟨by decide, ?_, ?_, ?_⟩
  · intro h
    exact absurd (gostrings.Contains_of_Mentions _ _ h) (by decide)
  · intro h
    exact absurd (gostrings.Contains_of_Mentions _ _ h) (by decide)
  · intro h
    exact absurd (gostrings.Contains_of_Mentions _ _ h) (by decide)

/-- C12, amended: whenever `Authorize` returns Deny, a minimum is configured,
the cache holds a record for the caller whose version parses, and the reason is
written from the name of that record, the release of its version (the version
as compared: its major, minor and patch, without the leading `v`, the
pre-release and the build metadata of the reported version) and the minimum; so
the reason contains each of the three. -/
theorem C12_deny_reason (m : minimumkubeletversion.minimumKubeletVersionAuth)
    (minimumKubeletVersion : Option semver.Version) (attrs : minimumkubeletversion.Attributes)
    (hdeny : (minimumkubeletversion.Authorize m minimumKubeletVersion attrs).Decision
      = minimumkubeletversion.Decision.DecisionDeny) :
    ∃ minVersion nd parsed,
      minimumKubeletVersion = some minVersion
      ∧ m.nodeInformer (m.nodeIdentifier attrs.User).1 = .ok nd
      ∧ semver.Parse (gostrings.TrimPrefix nd.Status.NodeInfo.KubeletVersion "v") = .ok parsed
      ∧ (minimumkubeletversion.Authorize m minimumKubeletVersion attrs).Reason
          = "kubelet version of node " ++ nd.ObjectMeta.Name ++ " is " ++ parsed.release.String
            ++ ", which is lower than minimumKubeletVersion of " ++ minVersion.String
      ∧ gostrings.Mentions (minimumkubeletversion.Authorize m minimumKubeletVersion attrs).Reason
          nd.ObjectMeta.Name
      ∧ gostrings.Mentions (minimumkubeletversion.Authorize m minimumKubeletVersion attrs).Reason
          parsed.release.String
      ∧ gostrings.Mentions (minimumkubeletversion.Authorize m minimumKubeletVersion attrs).Reason
          minVersion.String := by
  cases minimumKubeletVersion with
  | none => cases hdeny
  | some minVersion =>
    rw [minimumkubeletversion.Authorize_some] at hdeny ⊢
    by_cases h1 : (m.nodeIdentifier attrs.User).2 = false
    · simp [h1] at hdeny
    by_cases h2 : (m.nodeIdentifier attrs.User).1 = ""
    · simp [h1, h2] at hdeny
    by_cases h3 : minimumkubeletversion.exemptRequest attrs = true
    · simp [h1, h2, h3] at hdeny
    simp only [h1, h2, h3, if_false] at hdeny ⊢
    · cases hget : m.nodeInformer (m.nodeIdentifier attrs.User).1 with
      | error err =>
        unfold minimumkubeletversion.authorizeByVersion at hdeny
        simp [hget] at hdeny
      | ok nd =>
        rw [minimumkubeletversion.authorizeByVersion_ok m minVersion attrs _ nd hget] at hdeny ⊢
        cases hp : semver.Parse (gostrings.TrimPrefix nd.Status.NodeInfo.KubeletVersion "v") with
        | error err =>
          rw [minimumkubeletversion.IsKubeletVersionTooOld_error nd minVersion err hp] at hdeny
          simp at hdeny
        | ok parsed =>
          rw [minimumkubeletversion.IsKubeletVersionTooOld_ok nd minVersion parsed hp] at hdeny ⊢
          by_cases hgt : minVersion.GT parsed.release = true
          · simp only [hgt, if_true]
            refine ⟨minVersion, nd, parsed, rfl, rfl, hp, rfl, ?_, ?_, ?_⟩
            · exact gostrings.Mentions_append_right _ _ _ (gostrings.Mentions_append_right _ _ _
                (gostrings.Mentions_append_right _ _ _ (gostrings.Mentions_mid _ _ _)))
            · exact gostrings.Mentions_append_right _ _ _ (gostrings.Mentions_mid _ _ _)
            · exact gostrings.Mentions_end _ _
          · simp [hgt] at hdeny

/-- Witness of C12: node-7 reports 1.17.0 under the minimum 1.18.0 and lists
nodes, which is not exempt; the decision is Deny and the reason contains
"node-7", "1.17.0" and "1.18.0". -/
theorem C12_deny_reason_witness :
    (minimumkubeletversion.Authorize (examples.authFor "node-7" "1.17.0")
        (some examples.v1_18_0) (examples.nodeRequest "node-7" "list" "")).Decision
      = minimumkubeletversion.Decision.DecisionDeny
    ∧ (minimumkubeletversion.Authorize (examples.authFor "node-7" "1.17.0")
        (some examples.v1_18_0) (examples.nodeRequest "node-7" "list" "")).Reason
      = "kubelet version of node " ++ "node-7" ++ " is " ++ "1.17.0"
          ++ ", which is lower than minimumKubeletVersion of " ++ "1.18.0"
    ∧ ∃ minVersion nd parsed,
        some examples.v1_18_0 = some minVersion
        ∧ (examples.authFor "node-7" "1.17.0").nodeInformer
            ((examples.authFor "node-7" "1.17.0").nodeIdentifier
              (examples.nodeRequest "node-7" "list" "").User).1 = .ok nd
        ∧ semver.Parse (gostrings.TrimPrefix nd.Status.NodeInfo.KubeletVersion "v") = .ok parsed
        ∧ (minimumkubeletversion.Authorize (examples.authFor "node-7" "1.17.0")
            (some examples.v1_18_0) (examples.nodeRequest "node-7" "list" "")).Reason
            = "kubelet version of node " ++ nd.ObjectMeta.Name ++ " is "
              ++ parsed.release.String
              ++ ", which is lower than minimumKubeletVersion of " ++ minVersion.String
        ∧ gostrings.Mentions (minimumkubeletversion.Authorize (examples.authFor "node-7" "1.17.0")
            (some examples.v1_18_0) (examples.nodeRequest "node-7" "list" "")).Reason
            nd.ObjectMeta.Name
        ∧ gostrings.Mentions (minimumkubeletversion.Authorize (examples.authFor "node-7" "1.17.0")
            (some examples.v1_18_0) (examples.nodeRequest "node-7" "list" "")).Reason
            parsed.release.String
        ∧ gostrings.Mentions (minimumkubeletversion.Authorize (examples.authFor "node-7" "1.17.0")
            (some examples.v1_18_0) (examples.nodeRequest "node-7" "list" "")).Reason
            minVersion.String :=
  ⟨by decide, by decide,
   C12_deny_reason (examples.authFor "node-7" "1.17.0") (some examples.v1_18_0)
     (examples.nodeRequest "node-7" "list" "") (by decide)⟩

/-- C19: a record whose reported version, with a leading `v` removed, does not
parse is not too old: `IsKubeletVersionTooOld` returns false with a non-empty
reason that contains the version as reported; and `Authorize`, with a minimum
configured, on a request that is not exempt from a named node whose cache record
this is, returns no-opinion with that reason, not Deny. -/
theorem C19_malformed_version_not_too_old (nd : corev1.Node) (minVersion : semver.Version)
    (err : String)
    (hp : semver.Parse (gostrings.TrimPrefix nd.Status.NodeInfo.KubeletVersion "v")
      = .error err) :
    (minimumkubeletversion.IsKubeletVersionTooOld nd minVersion).1 = false
      ∧ (minimumkubeletversion.IsKubeletVersionTooOld nd minVersion).2 ≠ ""
      ∧ gostrings.Mentions (minimumkubeletversion.IsKubeletVersionTooOld nd minVersion).2
          nd.Status.NodeInfo.KubeletVersion
      ∧ ∀ (m : minimumkubeletversion.minimumKubeletVersionAuth)
          (attrs : minimumkubeletversion.Attributes),
          (m.nodeIdentifier attrs.User).2 = true →
          (m.nodeIdentifier attrs.User).1 ≠ "" →
          minimumkubeletversion.exemptRequest attrs = false →
          m.nodeInformer (m.nodeIdentifier attrs.User).1 = .ok nd →
          (minimumkubeletversion.Authorize m (some minVersion) attrs).Decision
              = minimumkubeletversion.Decision.DecisionNoOpinion
            ∧ (minimumkubeletversion.Authorize m (some minVersion) attrs).Reason
              = (minimumkubeletversion.IsKubeletVersionTooOld nd minVersion).2 := by
  have hold := minimumkubeletversion.IsKubeletVersionTooOld_error nd minVersion err hp
  refine ⟨by rw [hold], ?_, ?_, ?_⟩
  · rw [hold]
    intro h
    have h1 := ((gostrings.append_eq_empty _ _).mp h).1
    have h2 := ((gostrings.append_eq_empty _ _).mp h1).1
    have h3 := ((gostrings.append_eq_empty _ _).mp h2).1
    exact absurd h3 (by decide)
  · rw [hold]
    exact gostrings.Mentions_append_right _ _ _
      (gostrings.Mentions_append_right _ _ _ (gostrings.Mentions_end _ _))
  · intro m attrs hnode hname hex hget
    rw [minimumkubeletversion.Authorize_some]
    simp only [hnode, hname, hex, Bool.true_eq_false, Bool.false_eq_true, if_false]
    rw [minimumkubeletversion.authorizeByVersion_ok m minVersion attrs _ nd hget, hold]
    simp

/-- Witness of C19: node-7 reports "not a version" under the minimum 1.18.0 and
lists nodes; the decision is no-opinion and the reason quotes the version. -/
theorem C19_malformed_version_not_too_old_witness :
    minimumkubeletversion.IsKubeletVersionTooOld (examples.agent "node-7" "not a version")
        examples.v1_18_0
      = (false, "failed to parse node version not a version: No Major.Minor.Patch elements found")
    ∧ (minimumkubeletversion.Authorize (examples.authFor "node-7" "not a version")
        (some examples.v1_18_0) (examples.nodeRequest "node-7" "list" "")).Decision
      = minimumkubeletversion.Decision.DecisionNoOpinion
    ∧ (minimumkubeletversion.Authorize (examples.authFor "node-7" "not a version")
        (some examples.v1_18_0) (examples.nodeRequest "node-7" "list" "")).Reason
      = (minimumkubeletversion.IsKubeletVersionTooOld (examples.agent "node-7" "not a version")
          examples.v1_18_0).2 :=
  ⟨by decide,
   ((C19_malformed_version_not_too_old (examples.agent "node-7" "not a version")
      examples.v1_18_0 "No Major.Minor.Patch elements found" (by decide)).2.2.2
      (examples.authFor "node-7" "not a version") (examples.nodeRequest "node-7" "list" "")
      rfl (by decide) (by decide) rfl).1,
   ((C19_malformed_version_not_too_old (examples.agent "node-7" "not a version")
      examples.v1_18_0 "No Major.Minor.Patch elements found" (by decide)).2.2.2
      (examples.authFor "node-7" "not a version") (examples.nodeRequest "node-7" "list" "")
      rfl (by decide) (by decide) rfl).2⟩

/-! ## The config validator: the threshold and the registry -/

/-- C13: for a config object whose minimum is the empty string,
`validateMinimumKubeletVersion` succeeds whatever the listing of the agent
records returns, a list of records or a failure. -/
theorem C13_empty_minimum_succeeds (nodesList : Except String (List corev1.Node))
    (obj : configv1.Node) (hunset : obj.Spec.MinimumKubeletVersion = "") :
    node.validateMinimumKubeletVersion nodesList obj = none := by
  unfold node.validateMinimumKubeletVersion
  simp [hunset]

/-- Witness of C13: with no minimum the validation succeeds when the listing
fails, and when it returns agents that report old or unparsable versions. -/
theorem C13_empty_minimum_succeeds_witness :
    node.validateMinimumKubeletVersion (.error "connection refused") (examples.config "" "") = none
      ∧ node.validateMinimumKubeletVersion
          (.ok [examples.agent "a" "0.0.1", examples.agent "b" "not a version"])
          (examples.config "" "") = none :=
  ⟨C13_empty_minimum_succeeds _ _ rfl, C13_empty_minimum_succeeds _ _ rfl⟩

/-- C14: for a config object with a non-empty minimum: when the listing of the
agent records fails, `validateMinimumKubeletVersion` returns a Forbidden error
on `spec.minimumKubeletVersion`, whether or not the minimum parses; when the
listing succeeds and the minimum does not parse, it returns an Invalid error on
`spec.minimumKubeletVersion`, whatever the records are. -/
theorem C14_listing_failure_and_parse_failure (obj : configv1.Node)
    (hset : obj.Spec.MinimumKubeletVersion ≠ "") :
    (∀ listErr : String,
        node.validateMinimumKubeletVersion (.error listErr) obj
          = some { Typ := field.ErrorType.ErrorTypeForbidden,
                   Field := "spec.minimumKubeletVersion",
                   BadValue := "",
                   Detail := "Getting nodes to compare minimum version " ++ listErr })
      ∧ (∀ (nodes : List corev1.Node) (parseErr : String),
          semver.Parse obj.Spec.MinimumKubeletVersion = .error parseErr →
          node.validateMinimumKubeletVersion (.ok nodes) obj
            = some { Typ := field.ErrorType.ErrorTypeInvalid,
                     Field := "spec.minimumKubeletVersion",
                     BadValue := obj.Spec.MinimumKubeletVersion,
                     Detail := "Failed to parse submitted version "
                       ++ obj.Spec.MinimumKubeletVersion ++ " " ++ parseErr }) := by
  constructor
  · intro listErr
    unfold node.validateMinimumKubeletVersion
    simp only [hset, if_false]
    rfl
  · intro nodes parseErr hparse
    unfold node.validateMinimumKubeletVersion
    simp only [hset, if_false, hparse]
    rfl

/-- Witness of C14: the minimum "v1.18.0" does not parse (a leading `v`): with a
failed listing the error is Forbidden, with a listing of up-to-date agents it is
Invalid; for the minimum "1.18.0", which parses, a failed listing is Forbidden
too. -/
theorem C14_listing_failure_and_parse_failure_witness :
    (node.validateMinimumKubeletVersion (.error "connection refused")
        (examples.config "" "v1.18.0")).map (fun e => (e.Typ, e.Field))
      = some (field.ErrorType.ErrorTypeForbidden, "spec.minimumKubeletVersion")
    ∧ node.validateMinimumKubeletVersion (.ok [examples.agent "a" "1.19.0"])
        (examples.config "" "v1.18.0")
      = some { Typ := field.ErrorType.ErrorTypeInvalid,
               Field := "spec.minimumKubeletVersion",
               BadValue := "v1.18.0",
               Detail := "Failed to parse submitted version " ++ "v1.18.0" ++ " "
                 ++ "Invalid character(s) found in major number \"v1\"" }
    ∧ (node.validateMinimumKubeletVersion (.error "connection refused")
        (examples.config "" "1.18.0")).map (fun e => (e.Typ, e.Field))
      = some (field.ErrorType.ErrorTypeForbidden, "spec.minimumKubeletVersion") :=
  ⟨by decide,
   (C14_listing_failure_and_parse_failure (examples.config "" "v1.18.0") (by decide)).2
     [examples.agent "a" "1.19.0"] "Invalid character(s) found in major number \"v1\""
     (by decide),
   by decide⟩

/-! ## The config validator: its entry points -/

/-- C15: for every pair of config objects, `ValidateStatusUpdate` returns the
errors of `ValidateObjectMetaUpdate` on the metadata of the two and nothing
else; so its result is the same for any two pairs of objects with the same
metadata, whatever their `spec.minimumKubeletVersion` and
`spec.workerLatencyProfile`, and whatever the agent registry holds. -/
theorem C15_status_update_metadata_only (c : node.configNodeV1) (v : node.validation)
    (obj oldObj : configv1.Node) :
    c.ValidateStatusUpdate v (node.Object.Node obj) (node.Object.Node oldObj)
        = .ok (v.ValidateObjectMetaUpdate obj.ObjectMeta oldObj.ObjectMeta)
      ∧ ∀ (c2 : node.configNodeV1) (obj2 oldObj2 : configv1.Node),
          obj2.ObjectMeta = obj.ObjectMeta → oldObj2.ObjectMeta = oldObj.ObjectMeta →
          c2.ValidateStatusUpdate v (node.Object.Node obj2) (node.Object.Node oldObj2)
            = c.ValidateStatusUpdate v (node.Object.Node obj) (node.Object.Node oldObj) := by
  have hform : ∀ (c1 : node.configNodeV1) (o1 o2 : configv1.Node),
      c1.ValidateStatusUpdate v (node.Object.Node o1) (node.Object.Node o2)
        = .ok (v.ValidateObjectMetaUpdate o1.ObjectMeta o2.ObjectMeta) := by
    intro c1 o1 o2
    simp [node.configNodeV1.ValidateStatusUpdate, node.toConfigNodeV1]
  refine ⟨hform c obj oldObj, ?_⟩
  intro c2 obj2 oldObj2 h1 h2
  rw [hform, hform, h1, h2]

/-- Witness of C15: the update from unset to Low with the minimum 9.0.0, above
the version of the one listed agent, yields two errors in `ValidateUpdate` and
none in `ValidateStatusUpdate`, which returns what it returns for the objects
with an empty spec. -/
theorem C15_status_update_metadata_only_witness :
    (node.configNodeV1.ValidateUpdate { nodesGetter := .ok [examples.agent "a" "1.17.0"] }
        examples.noMetaErrors
        (node.Object.Node (examples.config configv1.LowUpdateSlowReaction "9.0.0"))
        (node.Object.Node (examples.config "" ""))).map List.length = .ok 2
      ∧ node.configNodeV1.ValidateStatusUpdate
          { nodesGetter := .ok [examples.agent "a" "1.17.0"] } examples.noMetaErrors
          (node.Object.Node (examples.config configv1.LowUpdateSlowReaction "9.0.0"))
          (node.Object.Node (examples.config "" "")) = .ok []
      ∧ node.configNodeV1.ValidateStatusUpdate
          { nodesGetter := .ok [examples.agent "a" "1.17.0"] } examples.noMetaErrors
          (node.Object.Node (examples.config configv1.LowUpdateSlowReaction "9.0.0"))
          (node.Object.Node (examples.config "" ""))
        = node.configNodeV1.ValidateStatusUpdate { nodesGetter := .error "unreachable" }
            examples.noMetaErrors
            (node.Object.Node (examples.config "" "")) (node.Object.Node (examples.config "" "")) :=
  ⟨by decide, by decide,
   ((C15_status_update_metadata_only { nodesGetter := .error "unreachable" }
      examples.noMetaErrors (examples.config "" "") (examples.config "" "")).2
      { nodesGetter := .ok [examples.agent "a" "1.17.0"] }
      (examples.config configv1.LowUpdateSlowReaction "9.0.0") (examples.config "" "")
      rfl rfl)⟩

/-- C20, at the failing inputs: for the nil object `toConfigNodeV1` returns a nil
pointer and no error, and the three entry points go on to read its fields:
`ValidateCreate` of nil, `ValidateUpdate` and `ValidateStatusUpdate` of a nil
object or of a nil old object end in a run-time panic, whatever the validation
of the metadata and the agent registry are. -/
theorem C20_nil_object_panics (c : node.configNodeV1) (v : node.validation)
    (obj : configv1.Node) :
    node.toConfigNodeV1 node.Object.Nil = (none, [])
      ∧ c.ValidateCreate v node.Object.Nil = .error node.nilPointerPanic
      ∧ c.ValidateUpdate v node.Object.Nil (node.Object.Node obj) = .error node.nilPointerPanic
      ∧ c.ValidateUpdate v (node.Object.Node obj) node.Object.Nil = .error node.nilPointerPanic
      ∧ c.ValidateStatusUpdate v node.Object.Nil (node.Object.Node obj)
          = .error node.nilPointerPanic
      ∧ c.ValidateStatusUpdate v (node.Object.Node obj) node.Object.Nil
          = .error node.nilPointerPanic :=
  ⟨rfl, rfl, rfl, rfl, rfl, rfl⟩

/-! ## The node admission plugin: status updates and pass-through -/

/-- C16, counterexample: with the static minimum 1.18.0, the update by node `a`
of the status subresource of its own node object, reporting the kubelet version
1.17.9, is denied; so is the one reporting an unparsable version. -/
theorem C16_counterexample :
    (examples.pluginFor "a" examples.static1_18_0).Admit
        (examples.statusUpdate "a" "a" (nodeversion.Object.Node (examples.agent "a" "1.17.9")))
      = some { internalError :=
          "registered kubelet version 1.17.9 lower than configured minimum 1.18.0" }
    ∧ ((examples.pluginFor "a" examples.static1_18_0).Admit
        (examples.statusUpdate "a" "a"
          (nodeversion.Object.Node (examples.agent "a" "not a version")))).isSome = true := by
  decide

/-- C16, amended: `Admit` does not look at the subresource: for an update on the
status subresource of the nodes resource by a named agent on its own record,
`Admit` allows the request exactly when the object is a node whose reported
kubelet version parses as a semantic version and is at least the static
minimum, as for an update of the node itself. -/
theorem C16_status_update_is_version_checked (p : nodeversion.Plugin)
    (a : nodeversion.Attributes) (nodeName : String)
    (hid : p.nodeIdentifier a.UserInfo = (nodeName, true)) (hname : nodeName ≠ "")
    (hres : a.Resource.GroupResource = nodeversion.nodeResource)
    (_hsub : a.Subresource = "status") (hop : a.Operation = nodeversion.Operation.Update)
    (hown : a.Name = nodeName) :
    p.Admit a = none ↔
      ∃ nd v, a.Object = nodeversion.Object.Node nd
        ∧ utilversion.ParseSemantic nd.Status.NodeInfo.KubeletVersion = .ok v
        ∧ v.AtLeast p.minKubeletVersion = true := by
  rw [nodeversion.Admit_own p a nodeName hid hname hres hown]
  simp only [hop, or_true, if_true]
  exact nodeversion.checkObject_eq_none p a

/-- Witness of C16: with the static minimum 1.18.0, the update by node `a` of
the status of its own node object that reports 1.18.0 is allowed. -/
theorem C16_status_update_is_version_checked_witness :
    (examples.pluginFor "a" examples.static1_18_0).Admit
        (examples.statusUpdate "a" "a" (nodeversion.Object.Node (examples.agent "a" "1.18.0")))
      = none :=
  (C16_status_update_is_version_checked (examples.pluginFor "a" examples.static1_18_0)
    (examples.statusUpdate "a" "a" (nodeversion.Object.Node (examples.agent "a" "1.18.0")))
    "a" rfl (by decide) rfl rfl rfl rfl).mpr
    ⟨examples.agent "a" "1.18.0", examples.static1_18_0, rfl, by decide, by decide⟩

/-- C17: `Admit` allows every request whose caller is not a node, and every
request of a node with a non-empty name on a resource other than nodes, whatever
the operation, the target name and the object. -/
theorem C17_admit_passes_through (p : nodeversion.Plugin) (a : nodeversion.Attributes)
    (h : (p.nodeIdentifier a.UserInfo).2 = false
      ∨ ((p.nodeIdentifier a.UserInfo).2 = true ∧ (p.nodeIdentifier a.UserInfo).1 ≠ ""
          ∧ a.Resource.GroupResource ≠ nodeversion.nodeResource)) :
    p.Admit a = none := by
  unfold nodeversion.Plugin.Admit
  rcases hid : p.nodeIdentifier a.UserInfo with ⟨nodeName, isNode⟩
  rw [hid] at h
  rcases h with h | ⟨h1, h2, h3⟩
  · simp only at h
    simp [h]
  · simp only at h1 h2
    have hlen : ¬ nodeName.length = 0 := fun e => h2 ((gostrings.length_eq_zero _).mp e)
    simp [h1, hlen, h3]

/-- Witness of C17: a caller that is not a node may update any node object, and
the node `a` may create a pod, under the static minimum 1.18.0. -/
theorem C17_admit_passes_through_witness :
    nodeversion.Plugin.Admit
        { nodeIdentifier := fun _ => ("", false), minKubeletVersion := examples.static1_18_0 }
        (examples.admitRequest "b" nodeversion.Operation.Update "a"
          (nodeversion.Object.Node (examples.agent "a" "1.0.0"))) = none
      ∧ (examples.pluginFor "a" examples.static1_18_0).Admit (examples.podRequest "a" "web")
          = none :=
  ⟨C17_admit_passes_through _ _ (Or.inl rfl),
   C17_admit_passes_through _ _ (Or.inr ⟨rfl, by decide, by decide⟩)⟩

/-- C18: for a request whose caller is a node with an empty name, `Admit` denies
the request, whatever the resource, the operation and the object. -/
theorem C18_admit_unnamed_node_denied (p : nodeversion.Plugin) (a : nodeversion.Attributes)
    (hid : p.nodeIdentifier a.UserInfo = ("", true)) :
    p.Admit a = some { internalError :=
      "could not determine node from user " ++ gostrings.Quote a.UserInfo.Name } := by
  unfold nodeversion.Plugin.Admit
  simp [hid, nodeversion.NewForbidden]

/-- Witness of C18: a node whose name is not known is refused the creation of a
pod and the delete of a node object. -/
theorem C18_admit_unnamed_node_denied_witness :
    (examples.pluginFor "" examples.static1_18_0).Admit (examples.podRequest "" "web")
        = some { internalError := "could not determine node from user \"system:node:\"" }
      ∧ ((examples.pluginFor "" examples.static1_18_0).Admit
          (examples.admitRequest "" nodeversion.Operation.Delete "a"
            nodeversion.Object.Nil)).isSome = true :=
  ⟨C18_admit_unnamed_node_denied _ _ rfl, by decide⟩

/-! ## The authorizer: the reach of the exemption on nodes -/

/-- C21: with a minimum configured, a resource request of a named node on nodes
in the core API group with the verb `get` or `update` yields no-opinion with an
empty reason and no error, whatever the target name and the subresource of the
request are (so on the record of another node too), and the only external call
is the one to the node identifier: the cache is not asked. -/
theorem C21_exemption_on_any_node (m : minimumkubeletversion.minimumKubeletVersionAuth)
    (minVersion : semver.Version) (attrs : minimumkubeletversion.Attributes)
    (hnode : (m.nodeIdentifier attrs.User).2 = true)
    (hname : (m.nodeIdentifier attrs.User).1 ≠ "")
    (hres : attrs.IsResourceRequest = true) (hgroup : attrs.APIGroup = api.GroupName)
    (hresource : attrs.Resource = "nodes")
    (hverb : attrs.Verb = "get" ∨ attrs.Verb = "update") :
    minimumkubeletversion.Authorize m (some minVersion) attrs
      = { Decision := minimumkubeletversion.Decision.DecisionNoOpinion, Reason := "",
          Err := none, Calls := [minimumkubeletversion.Call.NodeIdentity attrs.User] } := by
  have hex : minimumkubeletversion.exemptRequest attrs = true := by
    rcases hverb with hv | hv <;>
      simp [minimumkubeletversion.exemptRequest, hres, hgroup, hresource, hv]
  rw [minimumkubeletversion.Authorize_some]
  simp [hnode, hname, hex]

/-- Witness of C21: node-7 reports 1.17.0 under the minimum 1.18.0; its `get` of
the node object of another node, and its `update` of the status subresource of
that object, yield no-opinion with an empty reason, the cache not being asked,
also when the cache has no record at all. -/
theorem C21_exemption_on_any_node_witness :
    minimumkubeletversion.Authorize (examples.authFor "node-7" "1.17.0")
        (some examples.v1_18_0) (examples.nodeRequest "node-7" "get" "node-8")
      = { Decision := minimumkubeletversion.Decision.DecisionNoOpinion, Reason := "",
          Err := none,
          Calls := [minimumkubeletversion.Call.NodeIdentity (examples.kubeletUser "node-7")] }
    ∧ minimumkubeletversion.Authorize (examples.authFor "node-7" "1.17.0")
        (some examples.v1_18_0)
        { examples.nodeRequest "node-7" "update" "node-8" with Subresource := "status" }
      = { Decision := minimumkubeletversion.Decision.DecisionNoOpinion, Reason := "",
          Err := none,
          Calls := [minimumkubeletversion.Call.NodeIdentity (examples.kubeletUser "node-7")] }
    ∧ minimumkubeletversion.Authorize
        { nodeIdentifier := fun _ => ("node-7", true), nodeInformer := fun _ => .error "not found" }
        (some examples.v1_18_0) (examples.nodeRequest "node-7" "get" "node-8")
      = { Decision := minimumkubeletversion.Decision.DecisionNoOpinion, Reason := "",
          Err := none,
          Calls := [minimumkubeletversion.Call.NodeIdentity (examples.kubeletUser "node-7")] } :=
  ⟨C21_exemption_on_any_node _ _ _ rfl (by decide) rfl rfl rfl (Or.inl rfl),
   C21_exemption_on_any_node _ _ _ rfl (by decide) rfl rfl rfl (Or.inr rfl),
   C21_exemption_on_any_node _ _ _ rfl (by decide) rfl rfl rfl (Or.inl rfl)⟩

/-! ## The release-only comparison is monotone in the floor -/

namespace semver

/-- A version without pre-release that precedes a floor precedes every floor
that this floor is not greater than. -/
theorem precedes_release_mono (r f1 f2 : Version) (hr : r.Pre = [])
    (hle : f2.precedes f1 = false) (h : r.precedes f1 = true) : r.precedes f2 = true := by
  unfold Version.precedes at *
  simp only [hr, ne_eq, not_true_eq_false, false_and, or_false, and_false,
    decide_eq_true_eq, decide_eq_false_iff_not] at h hle ⊢
  have hlt : r.Major < f1.Major ∨ (r.Major = f1.Major ∧ (r.Minor < f1.Minor
      ∨ (r.Minor = f1.Minor ∧ r.Patch < f1.Patch))) := by tauto
  have hge : ¬ (f2.Major < f1.Major) ∧ (f2.Major = f1.Major → ¬ (f2.Minor < f1.Minor)
      ∧ (f2.Minor = f1.Minor → ¬ (f2.Patch < f1.Patch))) := by tauto
  have hgoal : r.Major < f2.Major ∨ (r.Major = f2.Major ∧ (r.Minor < f2.Minor
      ∨ (r.Minor = f2.Minor ∧ r.Patch < f2.Patch))) := by
    obtain ⟨g1, g2⟩ := hge
    rcases Nat.lt_or_ge f1.Major f2.Major with c1 | c1
    · left; omega
    · have e1 : f2.Major = f1.Major := by omega
      obtain ⟨g3, g4⟩ := g2 e1
      rcases Nat.lt_or_ge f1.Minor f2.Minor with c2 | c2
      · rcases hlt with a | ⟨a, b⟩
        · left; omega
        · right
          refine ⟨by omega, Or.inl ?_⟩
          rcases b with b | ⟨b, _⟩ <;> omega
      · have e2 : f2.Minor = f1.Minor := by omega
        have g5 := g4 e2
        rcases hlt with a | ⟨a, b⟩
        · left; omega
        · right
          refine ⟨by omega, ?_⟩
          rcases b with b | ⟨b, b2⟩
          · left; omega
          · right; exact ⟨by omega, by omega⟩
  tauto

end semver

/-- C23: `IsKubeletVersionTooOld` is monotone in the floor: for floors `f1` and
`f2` with `f1` not greater than `f2` (`f1.GT f2` is false), a node that is too
old for `f1` is too old for `f2`; and, read the other way, a node that is not
too old for `f2` is not too old for the lower floor `f1`. -/
theorem C23_too_old_monotone_in_floor (nd : corev1.Node) (f1 f2 : semver.Version)
    (hle : f1.GT f2 = false) :
    ((minimumkubeletversion.IsKubeletVersionTooOld nd f1).1 = true →
        (minimumkubeletversion.IsKubeletVersionTooOld nd f2).1 = true)
      ∧ ((minimumkubeletversion.IsKubeletVersionTooOld nd f2).1 = false →
        (minimumkubeletversion.IsKubeletVersionTooOld nd f1).1 = false) := by
  have hmono : (minimumkubeletversion.IsKubeletVersionTooOld nd f1).1 = true →
      (minimumkubeletversion.IsKubeletVersionTooOld nd f2).1 = true := by
    rw [minimumkubeletversion.IsKubeletVersionTooOld_fst,
      minimumkubeletversion.IsKubeletVersionTooOld_fst]
    cases hp : semver.Parse
        (minimumkubeletversion.removeLeadingV nd.Status.NodeInfo.KubeletVersion) with
    | error err => intro h; cases h
    | ok parsed =>
      intro h
      rw [semver.Version.GT_eq_precedes] at hle
      exact semver.precedes_release_mono parsed.release f1 f2 rfl hle h
  refine ⟨hmono, ?_⟩
  intro h2
  cases h1 : (minimumkubeletversion.IsKubeletVersionTooOld nd f1).1 with
  | false => rfl
  | true =>
    rw [hmono h1] at h2
    cases h2

/-- Witness of C23: the floor 1.18.0 is not greater than 1.19.0-rc.1; the node
that reports 1.17.0 is too old for both, and the node that reports 1.19.0 is too
old for neither. -/
theorem C23_too_old_monotone_in_floor_witness :
    examples.v1_18_0.GT
        { Major := 1, Minor := 19, Patch := 0,
          Pre := [{ VersionStr := "rc", VersionNum := 0, IsNum := false },
                  { VersionStr := "", VersionNum := 1, IsNum := true }],
          Build := [] } = false
    ∧ (minimumkubeletversion.IsKubeletVersionTooOld (examples.agent "a" "1.17.0")
        examples.v1_18_0).1 = true
    ∧ (minimumkubeletversion.IsKubeletVersionTooOld (examples.agent "a" "1.17.0")
        { Major := 1, Minor := 19, Patch := 0,
          Pre := [{ VersionStr := "rc", VersionNum := 0, IsNum := false },
                  { VersionStr := "", VersionNum := 1, IsNum := true }],
          Build := [] }).1 = true
    ∧ (minimumkubeletversion.IsKubeletVersionTooOld (examples.agent "b" "1.19.0")
        examples.v1_18_0).1 = false :=
  ⟨by decide, by decide,
   (C23_too_old_monotone_in_floor (examples.agent "a" "1.17.0") examples.v1_18_0
      { Major := 1, Minor := 19, Patch := 0,
        Pre := [{ VersionStr := "rc", VersionNum := 0, IsNum := false },
                { VersionStr := "", VersionNum := 1, IsNum := true }],
        Build := [] } (by decide)).1 (by decide),
   (C23_too_old_monotone_in_floor (examples.agent "b" "1.19.0") examples.v1_18_0
      { Major := 1, Minor := 19, Patch := 0,
        Pre := [{ VersionStr := "rc", VersionNum := 0, IsNum := false },
                { VersionStr := "", VersionNum := 1, IsNum := true }],
        Build := [] } (by decide)).2 (by decide)⟩

/-! ## The config validator and the authorizer agree -/

namespace node

/-- When `validateMinimumKubeletVersion` accepts a non-empty minimum against a
listing, the minimum parses and no listed agent fails against it. -/
theorem validateMinimumKubeletVersion_accepts (obj : configv1.Node) (nodes : List corev1.Node)
    (hset : obj.Spec.MinimumKubeletVersion ≠ "")
    (hacc : validateMinimumKubeletVersion (.ok nodes) obj = none) :
    ∃ version, semver.Parse obj.Spec.MinimumKubeletVersion = .ok version
      ∧ ∀ n ∈ nodes, ¬ agentFails n version := by
  unfold validateMinimumKubeletVersion at hacc
  simp only [hset, if_false] at hacc
  cases hp : semver.Parse obj.Spec.MinimumKubeletVersion with
  | error err => simp [hp] at hacc
  | ok version =>
    simp only [hp] at hacc
    refine ⟨version, rfl, ?_⟩
    rcases minimumKubeletVersionLoop_spec (field.NewPath "spec" "minimumKubeletVersion") obj
        version nodes with ⟨_, hall⟩ | ⟨_, _, _, _, _, _, hsome⟩
    · exact hall
    · rw [hsome] at hacc
      cases hacc

end node

/-- C22: if `validateMinimumKubeletVersion` accepts the non-empty minimum of a
config object against a listed sequence of agent records, then the authorizer
configured with that minimum (`SetMinimumKubeletVersion`), for a caller that is
an agent of the list and whose cache lookup returns its listed record, returns
no-opinion on every request, and an empty reason when the name of the agent is
not empty (as the name of a node record is). -/
theorem C22_validator_and_authorizer_agree (obj : configv1.Node) (nodes : List corev1.Node)
    (minimumKubeletVersion : Option semver.Version) (nd : corev1.Node)
    (m : minimumkubeletversion.minimumKubeletVersionAuth)
    (attrs : minimumkubeletversion.Attributes)
    (hset : obj.Spec.MinimumKubeletVersion ≠ "")
    (hacc : node.validateMinimumKubeletVersion (.ok nodes) obj = none)
    (hconf : minimumkubeletversion.SetMinimumKubeletVersion obj.Spec.MinimumKubeletVersion none
      = .ok minimumKubeletVersion)
    (hmem : nd ∈ nodes)
    (hid : m.nodeIdentifier attrs.User = (nd.ObjectMeta.Name, true))
    (hget : m.nodeInformer nd.ObjectMeta.Name = .ok nd) :
    (minimumkubeletversion.Authorize m minimumKubeletVersion attrs).Decision
        = minimumkubeletversion.Decision.DecisionNoOpinion
      ∧ (nd.ObjectMeta.Name ≠ "" →
        (minimumkubeletversion.Authorize m minimumKubeletVersion attrs).Reason = "") := by
  obtain ⟨version, hp, hall⟩ := node.validateMinimumKubeletVersion_accepts obj nodes hset hacc
  have hmin : minimumKubeletVersion = some version := by
    unfold minimumkubeletversion.SetMinimumKubeletVersion at hconf
    simp only [hset, if_false, hp] at hconf
    cases hconf
    rfl
  subst hmin
  have hpass := hall nd hmem
  have hreason : (minimumkubeletversion.IsKubeletVersionTooOld nd version).2 = "" := by
    by_contra hne
    exact hpass ((node.agentFails_iff nd version).mpr hne)
  have hbool : (minimumkubeletversion.IsKubeletVersionTooOld nd version).1 = false := by
    cases hb : (minimumkubeletversion.IsKubeletVersionTooOld nd version).1 with
    | false => rfl
    | true => exact absurd (Or.inl hb) hpass
  rw [minimumkubeletversion.Authorize_some]
  simp only [hid, Bool.true_eq_false, if_false]
  by_cases hname : nd.ObjectMeta.Name = ""
  · simp [hname]
  · simp only [hname, if_false]
    by_cases hex : minimumkubeletversion.exemptRequest attrs = true
    · simp [hex]
    · simp only [hex, if_false]
      rw [minimumkubeletversion.authorizeByVersion_ok m version attrs _ nd hget]
      simp [hbool, hreason]

/-- Witness of C22: the minimum 1.18.0 is accepted against the agents reporting
v1.18.0 and 1.19.2-rc.1; the authorizer configured with it gives the second of
them no-opinion with an empty reason on a `list` of nodes. -/
theorem C22_validator_and_authorizer_agree_witness :
    node.validateMinimumKubeletVersion
        (.ok [examples.agent "a" "v1.18.0", examples.agent "b" "1.19.2-rc.1"])
        (examples.config "" "1.18.0") = none
    ∧ minimumkubeletversion.SetMinimumKubeletVersion "1.18.0" none = .ok (some examples.v1_18_0)
    ∧ (minimumkubeletversion.Authorize (examples.authFor "b" "1.19.2-rc.1")
        (some examples.v1_18_0) (examples.nodeRequest "b" "list" "")).Decision
      = minimumkubeletversion.Decision.DecisionNoOpinion
    ∧ (minimumkubeletversion.Authorize (examples.authFor "b" "1.19.2-rc.1")
        (some examples.v1_18_0) (examples.nodeRequest "b" "list" "")).Reason = "" :=
  ⟨by decide, by decide,
   (C22_validator_and_authorizer_agree (examples.config "" "1.18.0")
      [examples.agent "a" "v1.18.0", examples.agent "b" "1.19.2-rc.1"]
      (some examples.v1_18_0) (examples.agent "b" "1.19.2-rc.1")
      (examples.authFor "b" "1.19.2-rc.1") (examples.nodeRequest "b" "list" "")
      (by decide) (by decide) (by decide) (by decide) rfl rfl).1,
   (C22_validator_and_authorizer_agree (examples.config "" "1.18.0")
      [examples.agent "a" "v1.18.0", examples.agent "b" "1.19.2-rc.1"]
      (some examples.v1_18_0) (examples.agent "b" "1.19.2-rc.1")
      (examples.authFor "b" "1.19.2-rc.1") (examples.nodeRequest "b" "list" "")
      (by decide) (by decide) (by decide) (by decide) rfl rfl).2 (by decide)⟩

/-! ## The config validator: creation and the latency profile -/

namespace node

theorem minimumKubeletVersionLoop_congr (fieldPath : String) (obj1 obj2 : configv1.Node)
    (version : semver.Version) (nodes : List corev1.Node)
    (hmin : obj1.Spec.MinimumKubeletVersion = obj2.Spec.MinimumKubeletVersion) :
    minimumKubeletVersionLoop fieldPath obj1 version nodes
      = minimumKubeletVersionLoop fieldPath obj2 version nodes := by
  induction nodes with
  | nil => rfl
  | cons x rest ih => simp only [minimumKubeletVersionLoop, hmin, ih]

/-- The function `validateMinimumKubeletVersion` reads the minimum of the config
object and nothing else of it. -/
theorem validateMinimumKubeletVersion_congr (nodesList : Except String (List corev1.Node))
    (obj1 obj2 : configv1.Node)
    (hmin : obj1.Spec.MinimumKubeletVersion = obj2.Spec.MinimumKubeletVersion) :
    validateMinimumKubeletVersion nodesList obj1 = validateMinimumKubeletVersion nodesList obj2 := by
  unfold validateMinimumKubeletVersion
  rw [hmin]
  by_cases hset : obj2.Spec.MinimumKubeletVersion = ""
  · simp [hset]
  · simp only [hset, if_false]
    cases nodesList with
    | error err => rfl
    | ok nodes =>
      cases hp : semver.Parse obj2.Spec.MinimumKubeletVersion with
      | error err => rfl
      | ok version =>
        exact minimumKubeletVersionLoop_congr _ obj1 obj2 version nodes hmin

end node

/-- C24: `ValidateCreate` does not read the worker latency profile: it returns
the same for two config objects with the same metadata and the same minimum,
whatever their `spec.workerLatencyProfile`; so an object with the Low profile
gets on creation what the same object with no profile gets, while
`ValidateUpdate` from that object with no profile to the one with Low reports the
Invalid error of the latency profile. -/
theorem C24_create_ignores_latency_profile (c : node.configNodeV1) (v : node.validation)
    (obj1 obj2 : configv1.Node) (hmeta : obj1.ObjectMeta = obj2.ObjectMeta)
    (hmin : obj1.Spec.MinimumKubeletVersion = obj2.Spec.MinimumKubeletVersion) :
    c.ValidateCreate v (node.Object.Node obj1) = c.ValidateCreate v (node.Object.Node obj2)
      ∧ (obj2.Spec.WorkerLatencyProfile = "" →
          obj1.Spec.WorkerLatencyProfile = configv1.LowUpdateSlowReaction →
          ∃ errs e, c.ValidateUpdate v (node.Object.Node obj1) (node.Object.Node obj2) = .ok errs
            ∧ e ∈ errs ∧ e.Typ = field.ErrorType.ErrorTypeInvalid
            ∧ e.Field = "spec.workerLatencyProfile") := by
  constructor
  · simp only [node.configNodeV1.ValidateCreate, node.toConfigNodeV1, hmeta,
      node.validateMinimumKubeletVersion_congr c.nodesGetter obj1 obj2 hmin]
  · intro hold hnew
    have hlat : node.validateConfigNodeForExtremeLatencyProfile obj1 obj2
        = some (field.Invalid "spec.workerLatencyProfile" obj1.Spec.WorkerLatencyProfile
            ("cannot update worker latency profile from "
              ++ gostrings.Quote obj2.Spec.WorkerLatencyProfile ++ " to "
              ++ gostrings.Quote obj1.Spec.WorkerLatencyProfile
              ++ " as extreme profile transition is unsupported, please select any other profile with supported transition such as "
              ++ gostrings.Quote configv1.MediumUpdateAverageReaction)) := by
      unfold node.validateConfigNodeForExtremeLatencyProfile node.rejectionScenarios
      simp [node.latencyProfileLoop, hold, hnew, field.NewPath]
    generalize
      "cannot update worker latency profile from "
        ++ gostrings.Quote obj2.Spec.WorkerLatencyProfile ++ " to "
        ++ gostrings.Quote obj1.Spec.WorkerLatencyProfile
        ++ " as extreme profile transition is unsupported, please select any other profile with supported transition such as "
        ++ gostrings.Quote configv1.MediumUpdateAverageReaction = detail at hlat
    refine ⟨node.appendError
        (node.appendError ([] ++ v.ValidateObjectMetaUpdate obj1.ObjectMeta obj2.ObjectMeta)
          (some (field.Invalid "spec.workerLatencyProfile" obj1.Spec.WorkerLatencyProfile
            detail)))
        (node.validateMinimumKubeletVersion c.nodesGetter obj1),
      field.Invalid "spec.workerLatencyProfile" obj1.Spec.WorkerLatencyProfile detail,
      ?_, ?_, rfl, rfl⟩
    · simp only [node.configNodeV1.ValidateUpdate, node.toConfigNodeV1, hlat]
    · cases hv : node.validateMinimumKubeletVersion c.nodesGetter obj1 <;>
        simp [node.appendError]

/-- Witness of C24: with no error on the metadata and no minimum, the config
object is accepted on creation with the Low profile as with no profile, and the
update from no profile to Low is rejected. -/
theorem C24_create_ignores_latency_profile_witness :
    node.configNodeV1.ValidateCreate { nodesGetter := .ok [] } examples.noMetaErrors
        (node.Object.Node (examples.config configv1.LowUpdateSlowReaction "")) = .ok []
    ∧ node.configNodeV1.ValidateCreate { nodesGetter := .ok [] } examples.noMetaErrors
        (node.Object.Node (examples.config configv1.LowUpdateSlowReaction ""))
      = node.configNodeV1.ValidateCreate { nodesGetter := .ok [] } examples.noMetaErrors
        (node.Object.Node (examples.config "" ""))
    ∧ (node.configNodeV1.ValidateUpdate { nodesGetter := .ok [] } examples.noMetaErrors
        (node.Object.Node (examples.config configv1.LowUpdateSlowReaction ""))
        (node.Object.Node (examples.config "" ""))).map
        (fun errs => errs.map (fun e => (e.Typ, e.Field)))
      = .ok [(field.ErrorType.ErrorTypeInvalid, "spec.workerLatencyProfile")] :=
  ⟨by decide,
   (C24_create_ignores_latency_profile { nodesGetter := .ok [] } examples.noMetaErrors
      (examples.config configv1.LowUpdateSlowReaction "") (examples.config "" "") rfl rfl).1,
   by decide⟩
